import Mathlib

/-!
Shallow embedding of the Half Suit ("Fish") game engine.

The primary model follows `backend/app/fish/` (enums, composite models, card
utilities and the `Game` state machine in `game.py`).  A second, independent
model embeds the claim resolver of `backend/app/core/claim_validator.py`
(`ClaimValidator.validate_claim`), which is a parallel engine variant in the
same repository.

Modelling conventions:
* Python dicts with string keys (`Game.players`, claim assignments) are
  association lists in insertion order; dict-key uniqueness is stated as a
  hypothesis where a proof needs it.
* Python `datetime.now(timezone.utc)` is an abstract tick: every mutating
  operation receives a `now : Nat` and stores it in `last_updated`.
* Python exceptions raised by an operation are modelled as `Except.error`;
  the operation returns the (possibly partially mutated) state next to the
  result, exactly as a raised exception leaves the mutated object behind.
  Exceptions raised *inside* validation helpers (`KeyError` on a missing
  player, `get_card` on an id absent from the deck, `IndexError` on an empty
  card id) are modelled as the helper reporting failure, which leads to the
  same rejection at the same program point.
* `random.shuffle` and `random.choice` are modelled by explicit function
  parameters (`shuf`, `pick`); theorems that depend on their behaviour
  hypothesise exactly the properties the library guarantees (a permutation,
  membership in the non-empty argument list).
* `sorted(a) == sorted(b)` on lists of card-id strings is modelled as
  multiset equality, its exact meaning.
-/

/-- `CardRank` from `fish/models/enums.py`. -/
inductive CardRank where
  | TWO | THREE | FOUR | FIVE | SIX | SEVEN | EIGHT | NINE | TEN
  | JACK | QUEEN | KING | ACE | JOKER | CUT
deriving DecidableEq, Repr

def CardRank.value : CardRank → String
  | .TWO => "2" | .THREE => "3" | .FOUR => "4" | .FIVE => "5" | .SIX => "6"
  | .SEVEN => "7" | .EIGHT => "8" | .NINE => "9" | .TEN => "10" | .JACK => "J"
  | .QUEEN => "Q" | .KING => "K" | .ACE => "A" | .JOKER => "Joker" | .CUT => "Cut"

def CardRank.all : List CardRank :=
  [.TWO, .THREE, .FOUR, .FIVE, .SIX, .SEVEN, .EIGHT, .NINE, .TEN,
   .JACK, .QUEEN, .KING, .ACE, .JOKER, .CUT]

def CardRank.is_lower : CardRank → Bool
  | .TWO | .THREE | .FOUR | .FIVE | .SIX | .SEVEN => true
  | _ => false

def CardRank.is_higher : CardRank → Bool
  | .NINE | .TEN | .JACK | .QUEEN | .KING | .ACE => true
  | _ => false

def CardRank.is_special : CardRank → Bool
  | .EIGHT | .JOKER | .CUT => true
  | _ => false

/-- `CardSuit` from `fish/models/enums.py`. -/
inductive CardSuit where
  | SPADES | HEARTS | DIAMONDS | CLUBS | JOKER
deriving DecidableEq, Repr

def CardSuit.value : CardSuit → String
  | .SPADES => "Spades" | .HEARTS => "Hearts" | .DIAMONDS => "Diamonds"
  | .CLUBS => "Clubs" | .JOKER => "Joker"

def CardSuit.all : List CardSuit :=
  [.SPADES, .HEARTS, .DIAMONDS, .CLUBS, .JOKER]

/-- `HalfSuits` from `fish/models/enums.py` (ids 0-8). -/
inductive HalfSuits where
  | SPADES_LOW | SPADES_HIGH | HEARTS_LOW | HEARTS_HIGH
  | DIAMONDS_LOW | DIAMONDS_HIGH | CLUBS_LOW | CLUBS_HIGH | SPECIAL
deriving DecidableEq, Repr

def HalfSuits.all : List HalfSuits :=
  [.SPADES_LOW, .SPADES_HIGH, .HEARTS_LOW, .HEARTS_HIGH,
   .DIAMONDS_LOW, .DIAMONDS_HIGH, .CLUBS_LOW, .CLUBS_HIGH, .SPECIAL]

/-- `TeamId` from `fish/models/enums.py` (0-indexed). -/
inductive TeamId where
  | TEAM_1 | TEAM_2
deriving DecidableEq, Repr

/-- `TeamId.opp`. -/
def TeamId.opp : TeamId → TeamId
  | .TEAM_1 => .TEAM_2
  | .TEAM_2 => .TEAM_1

/-- `ClaimScenario` from `fish/models/enums.py`. -/
inductive ClaimScenario where
  | CLAIM_WITHIN_TEAM | CLAIM_OPP_TEAM_OPPOSED | CLAIM_OPP_TEAM_UNOPPOSED
  | CLAIM_OPP_TEAM_AWAITING | CLAIM_COUNTER
deriving DecidableEq, Repr

/-- `GameHandCompleteTurnTransfer` from `fish/models/enums.py`. -/
inductive GameHandCompleteTurnTransfer where
  | RANDOM | FIRST
deriving DecidableEq, Repr

/-- `GameStatus` from `fish/models/enums.py`. -/
inductive GameStatus where
  | LOBBY | ACTIVE_ASK | ACTIVE_COUNTER | FINISHED
deriving DecidableEq, Repr

/-- `valid_card` from `fish/utils/rank_suite.py`. -/
def valid_card (rank : CardRank) (suit : CardSuit) : Bool :=
  if rank = CardRank.JOKER ∨ rank = CardRank.CUT then suit = CardSuit.JOKER
  else suit ≠ CardSuit.JOKER

/-- `get_half_suit` from `fish/utils/rank_suite.py`. -/
def get_half_suit (rank : CardRank) (suit : CardSuit) : HalfSuits :=
  match suit with
  | .JOKER => .SPECIAL
  | .SPADES =>
      if rank = CardRank.EIGHT then .SPECIAL
      else if rank.is_lower then .SPADES_LOW else .SPADES_HIGH
  | .HEARTS =>
      if rank = CardRank.EIGHT then .SPECIAL
      else if rank.is_lower then .HEARTS_LOW else .HEARTS_HIGH
  | .DIAMONDS =>
      if rank = CardRank.EIGHT then .SPECIAL
      else if rank.is_lower then .DIAMONDS_LOW else .DIAMONDS_HIGH
  | .CLUBS =>
      if rank = CardRank.EIGHT then .SPECIAL
      else if rank.is_lower then .CLUBS_LOW else .CLUBS_HIGH

/-- `unique_card_id` from `fish/utils/rank_suite.py`: rank value followed by
the first character of the suit value. -/
def unique_card_id (rank : CardRank) (suit : CardSuit) : String :=
  rank.value ++ suit.value.take 1

/-- `id_to_rank_suit` from `fish/utils/rank_suite.py`: split the id into all
characters but the last (matched against the rank values) and the last
character (matched against the first character of the suit values). -/
def id_to_rank_suit (id : String) : Option (CardRank × CardSuit) :=
  let rank := id.dropRight 1
  let suit := id.takeRight 1
  let r := CardRank.all.filter (fun c => c.value == rank)
  let s := CardSuit.all.filter (fun c => c.value.take 1 == suit)
  match r, s with
  | [r0], [s0] => some (r0, s0)
  | _, _ => none

/-- `Card` from `fish/models/composite.py` (rank/suit pair; the pydantic
validator only admits pairs with `valid_card`). -/
structure Card where
  rank : CardRank
  suit : CardSuit
deriving DecidableEq, Repr

def Card.half_suit (c : Card) : HalfSuits := get_half_suit c.rank c.suit

def Card.id (c : Card) : String := unique_card_id c.rank c.suit

/-- `create_all_cards` from `fish/utils/card.py`: the 54-card deck in
construction order. -/
def create_all_cards : List Card :=
  CardRank.all.flatMap (fun r =>
    if r = CardRank.JOKER ∨ r = CardRank.CUT then [⟨r, CardSuit.JOKER⟩]
    else (CardSuit.all.filter (fun s => s ≠ CardSuit.JOKER)).map (fun s => ⟨r, s⟩))

/-- `Player` from `fish/models/composite.py`. -/
structure Player where
  id : String
  name : String
  team : TeamId
  hand : List Card
deriving DecidableEq, Repr

def Player.has_card (p : Player) (card : Card) : Bool :=
  p.hand.any (fun c => c.id == card.id)

def Player.has_half_suit (p : Player) (hs : HalfSuits) : Bool :=
  p.hand.any (fun c => c.half_suit == hs)

def Player.remove_card (p : Player) (card : Card) : Player :=
  { p with hand := p.hand.filter (fun c => c.id != card.id) }

def Player.add_card (p : Player) (card : Card) (check : Bool := true) : Player :=
  if !check || !p.has_card card then { p with hand := p.hand ++ [card] } else p

/-- `Team` from `fish/models/composite.py`. -/
structure Team where
  id : TeamId
  name : String
  score : Nat
  players : List String
deriving DecidableEq, Repr

/-- `HalfSuit` record from `fish/models/composite.py`. -/
structure HalfSuit where
  half_suit : HalfSuits
  claimed : Bool := false
  claimed_team : Option TeamId := none
  claimed_player : Option String := none
  claimed_success : Option Bool := none
deriving DecidableEq, Repr

/-- `AskRecord` from `fish/models/composite.py`. -/
structure AskRecord where
  turn_cnt : Nat
  asker : String
  respondant : String
  card : Card
  success : Bool
deriving DecidableEq, Repr

/-- `ClaimRecord` from `fish/models/composite.py`. -/
structure ClaimRecord where
  turn_cnt : Nat
  team : TeamId
  claimant : String
  half_suit : HalfSuits
  is_for_other : Bool
  is_counter : Bool
  countered : Option Bool := none
  success : Bool
  scenario : ClaimScenario
deriving DecidableEq, Repr

/-- `GameSettings` from `fish/models/composite.py` (the fields the state
machine reads; the unimplemented timer fields are omitted). -/
structure GameSettings where
  min_players : Nat := 6
  max_players : Nat := 9
  allow_bluffs : Bool := true
  hand_complete_turn_transfer : GameHandCompleteTurnTransfer := .RANDOM
deriving DecidableEq, Repr

/-- `create_half_suits` from `fish/utils/card.py`. -/
def create_half_suits : List HalfSuit :=
  HalfSuits.all.map (fun hs => { half_suit := hs })

/-- `valid_id` from `fish/utils/misc.py` (over the character list: no space,
ascii, alphanumeric and non-empty, length between 1 and 50). -/
def valid_id (id : String) : Bool :=
  (!id.data.any (fun c => c == ' ')) && id.data.all (fun c => c.toNat ≤ 127) &&
    (id.data.length > 0 && id.data.all Char.isAlphanum) &&
    (1 ≤ id.data.length && id.data.length ≤ 50)

/-- Python `str.strip`: drop leading and trailing whitespace characters. -/
def stripChars (l : List Char) : List Char :=
  ((l.dropWhile Char.isWhitespace).reverse.dropWhile Char.isWhitespace).reverse

/-- `valid_name` from `fish/utils/misc.py` (`name == name.strip()`, ascii,
alphanumeric and non-empty, length between 1 and 50). -/
def valid_name (name : String) : Bool :=
  (name.data == stripChars name.data) && name.data.all (fun c => c.toNat ≤ 127) &&
    (name.data.length > 0 && name.data.all Char.isAlphanum) &&
    (1 ≤ name.data.length && name.data.length ≤ 50)

/-- The `Game` state from `fish/game/game.py` (`Game.__init__` fields). -/
structure Game where
  settings : GameSettings
  status : GameStatus
  cards : List Card
  players : List Player
  team1 : Team
  team2 : Team
  asks : List AskRecord
  claims : List ClaimRecord
  counter_claim_passed : Option (List String)
  half_suits : List HalfSuit
  last_updated : Nat
  player_turn : Option String
  turn_cnt : Nat
deriving DecidableEq, Repr

/-- `Game.__init__`. -/
def Game.init (settings : GameSettings) : Game where
  settings := settings
  status := .LOBBY
  cards := create_all_cards
  players := []
  team1 := { id := .TEAM_1, name := "Team 1", score := 0, players := [] }
  team2 := { id := .TEAM_2, name := "Team 2", score := 0, players := [] }
  asks := []
  claims := []
  counter_claim_passed := none
  half_suits := create_half_suits
  last_updated := 0
  player_turn := none
  turn_cnt := 0

/-- `self.teams[t]` (the team list indexed by the `TeamId` int value). -/
def Game.getTeam (g : Game) : TeamId → Team
  | .TEAM_1 => g.team1
  | .TEAM_2 => g.team2

def Game.modifyTeam (g : Game) (t : TeamId) (f : Team → Team) : Game :=
  match t with
  | .TEAM_1 => { g with team1 := f g.team1 }
  | .TEAM_2 => { g with team2 := f g.team2 }

/-- `self.players[id]` as a dict lookup. -/
def Game.getPlayer (g : Game) (id : String) : Option Player :=
  g.players.find? (fun p => p.id == id)

/-- In-place mutation of the player stored under `id`. -/
def Game.setPlayer (g : Game) (id : String) (f : Player → Player) : Game :=
  { g with players := g.players.map (fun p => if p.id == id then f p else p) }

/-- `self.half_suits[hs]` as a dict lookup (always present: the dict is
created with all nine keys). -/
def Game.getHalfSuit (g : Game) (hs : HalfSuits) : HalfSuit :=
  (g.half_suits.find? (fun h => h.half_suit == hs)).getD { half_suit := hs }

def Game.setHalfSuit (g : Game) (hs : HalfSuits) (f : HalfSuit → HalfSuit) : Game :=
  { g with half_suits := g.half_suits.map (fun h => if h.half_suit == hs then f h else h) }

/-- `Game._nxt_plyr_team`. -/
def Game.nxt_plyr_team (g : Game) : TeamId :=
  if g.team1.players.length > g.team2.players.length then .TEAM_2 else .TEAM_1

/-- `Game.get_card`: linear search of the deck for the id (the Python method
raises when the id is absent; callers treat that as rejection, modelled by
`none`). -/
def Game.get_card (g : Game) (rank : CardRank) (suit : CardSuit) : Option Card :=
  g.cards.find? (fun c => c.id == unique_card_id rank suit)

/-- The common-team accumulator loop of `Game._valid_assignment`: every named
player must be on the team of the first named player. -/
def allSameTeam : List TeamId → Bool
  | [] => true
  | t :: rest => rest.all (fun x => x == t)

/-- `Game._valid_assignment`.  One entry check mirrors the loop body
(card id parses, the card exists in the deck and belongs to `hs`, the player
exists); `sorted(hs_cards) == sorted(assignment.keys())` is multiset
equality of the key lists. -/
def Game.valid_assignment (g : Game) (assignment : List (String × String)) (hs : HalfSuits) : Bool :=
  assignment.all (fun kv =>
    match id_to_rank_suit kv.1 with
    | none => false
    | some (r, s) =>
      match g.get_card r s with
      | none => false
      | some card => card.half_suit == hs && (g.getPlayer kv.2).isSome) &&
  allSameTeam (assignment.filterMap (fun kv => (g.getPlayer kv.2).map Player.team)) &&
  decide (((g.cards.filter (fun c => c.half_suit == hs)).map Card.id : Multiset String)
            = (assignment.map Prod.fst : Multiset String))

/-- `Game._check_assignment`: every named player actually holds the card. -/
def Game.check_assignment (g : Game) (assignment : List (String × String)) : Bool :=
  assignment.all (fun kv =>
    match id_to_rank_suit kv.1 with
    | none => false
    | some (r, s) =>
      match g.get_card r s with
      | none => false
      | some card =>
        match g.getPlayer kv.2 with
        | none => false
        | some p => p.has_card card)

/-- `Game._remove_half_suit`. -/
def Game.remove_half_suit (g : Game) (hs : HalfSuits) : Game :=
  { g with players := g.players.map (fun p =>
      { p with hand := p.hand.filter (fun c => c.half_suit != hs) }) }

/-- `Game._pick_playable_player`.  `random.choice` is the `pick` parameter;
the `None` turn and the unimplemented `FIRST` setting raise. -/
def Game.pick_playable_player (g : Game) (pick : List String → String) : Except String Game :=
  match g.player_turn with
  | none => .error "Cannot pick playable player at this stage"
  | some pt =>
    match g.settings.hand_complete_turn_transfer with
    | .RANDOM =>
      match g.getPlayer pt with
      | none => .error "KeyError"
      | some p =>
        let pick_from := (g.getTeam p.team).players.filter
          (fun q => ((g.getPlayer q).map (fun pl => pl.hand.length)).getD 0 > 0)
        if pick_from.length = 0 then .ok g
        else .ok { g with player_turn := some (pick pick_from) }
    | .FIRST => .error "Not implemented yet"

/-- `self.player_turn is not None and len(self.players[self.player_turn].hand) == 0`
guard followed by `_pick_playable_player`, shared by the three resolving
operations. -/
def Game.repick_if_empty (g : Game) (pick : List String → String) : Except String Game :=
  match g.player_turn with
  | none => .ok g
  | some pt =>
    match g.getPlayer pt with
    | none => .error "KeyError"
    | some p => if p.hand.length = 0 then g.pick_playable_player pick else .ok g

/-- `self.teams[0].score + self.teams[1].score == 9`, the completion flag
returned by the resolving operations. -/
def Game.doneFlag (g : Game) : Bool :=
  g.team1.score + g.team2.score == 9

def Game.addScore (g : Game) (t : TeamId) : Game :=
  g.modifyTeam t (fun tm => { tm with score := tm.score + 1 })

/-- `Game.join_player`. -/
def Game.join_player (g : Game) (now : Nat) (id name : String) :
    Except String TeamId × Game :=
  if g.status ≠ GameStatus.LOBBY then
    (.error "Players cannot join an active/finished game", g)
  else if g.players.length ≥ g.settings.max_players then
    (.error "Player count exceeds limit", g)
  else if ¬(valid_id id ∧ valid_name name) then
    (.error "Invalid ID / Name", g)
  else if (g.getPlayer id).isSome then
    (.error "Player with ID already present in game", g)
  else if g.players.any (fun p => p.name == name) then
    (.error "Player with name already present in game", g)
  else
    let g1 := { g with last_updated := now }
    let team := g1.nxt_plyr_team
    let newPlayer : Player := { id := id, name := name, team := team, hand := [] }
    let g2 := { g1 with players := g1.players ++ [newPlayer] }
    let g3 := g2.modifyTeam team (fun tm => { tm with players := tm.players ++ [id] })
    (.ok team, g3)

/-- `Game.leave_player`. -/
def Game.leave_player (g : Game) (now : Nat) (id : String) : Except String Unit × Game :=
  if g.status = GameStatus.LOBBY then
    match g.getPlayer id with
    | none => (.error "KeyError", g)
    | some p =>
      let roster := (g.getTeam p.team).players
      match roster.findIdx? (fun q => q == id) with
      | none => (.error "Player not found", g)
      | some idx =>
        let g1 := { g with last_updated := now }
        let g2 := g1.modifyTeam p.team (fun tm => { tm with players := tm.players.eraseIdx idx })
        let g3 := { g2 with players := g2.players.eraseP (fun q => q.id == id) }
        (.ok (), g3)
  else
    (.ok (), { g with status := GameStatus.FINISHED })

/-- `Game.team_swap_player`. -/
def Game.team_swap_player (g : Game) (now : Nat) (id : String) : Except String Unit × Game :=
  if g.status ≠ GameStatus.LOBBY then
    (.error "Cannot swap teams during or after the game", g)
  else
    match g.getPlayer id with
    | none => (.error "KeyError", g)
    | some p =>
      let roster := (g.getTeam p.team).players
      match roster.findIdx? (fun q => q == id) with
      | none => (.error "Player not found", g)
      | some idx =>
        let g1 := { g with last_updated := now }
        let g2 := g1.modifyTeam p.team (fun tm => { tm with players := tm.players.eraseIdx idx })
        let g3 := g2.modifyTeam p.team.opp (fun tm => { tm with players := tm.players ++ [id] })
        let g4 := g3.setPlayer id (fun q => { q with team := p.team.opp })
        (.ok (), g4)

/-- `Game._deal_cards`: consecutive blocks of the (shuffled) deck, the first
`54 % n` players receiving one extra card.  The running `card_idx` after `i`
players is `(54 / n) * i + min i (54 % n)`. -/
def Game.deal_cards (g : Game) : Game :=
  let n := g.players.length
  let pp := 54 / n
  let extra := 54 % n
  { g with players := g.players.enum.map (fun ip =>
      let cnt := pp + (if ip.1 < extra then 1 else 0)
      let start := pp * ip.1 + min ip.1 extra
      { ip.2 with hand := ip.2.hand ++ ((g.cards.drop start).take cnt) }) }

/-- `Game.start_game`.  `random.shuffle` is `shuf` (a permutation in real
executions), `random.choice` over the player ids is `pick`. -/
def Game.start_game (g : Game) (now : Nat) (shuf : List Card → List Card)
    (pick : List String → String) : Except String String × Game :=
  if g.status ≠ GameStatus.LOBBY then
    (.error "Cannot start a game that is not in lobby", g)
  else if ¬(g.settings.min_players ≤ g.players.length ∧
            g.players.length ≤ g.settings.max_players) then
    (.error "Cannot start game with this many players", g)
  else
    let g1 := { g with last_updated := now }
    let g2 := { g1 with cards := shuf g1.cards }
    let g3 := g2.deal_cards
    let turn := pick (g3.players.map Player.id)
    let g4 := { g3 with status := GameStatus.ACTIVE_ASK, player_turn := some turn }
    (.ok turn, g4)

/-- `Game.ask`. -/
def Game.ask (g : Game) (now : Nat) (asker_id respondant_id : String) (card : Card) :
    Except String AskRecord × Game :=
  if g.player_turn ≠ some asker_id then (.error "Not your turn", g)
  else if g.status ≠ GameStatus.ACTIVE_ASK then (.error "Cannot ask any questions right now", g)
  else
    match g.getPlayer asker_id with
    | none => (.error "Asker not found", g)
    | some asker =>
      match g.getPlayer respondant_id with
      | none => (.error "Respondant not found", g)
      | some respondant =>
        if asker.team = respondant.team then (.error "Cannot ask teammate", g)
        else if ¬ asker.has_half_suit card.half_suit then
          (.error "Asker does not have card of the half suit", g)
        else if ¬ g.settings.allow_bluffs && asker.has_card card then
          (.error "Bluffs are not allowed in this game", g)
        else if respondant.hand.length = 0 then
          (.error "Cannot ask a player with no cards", g)
        else
          let g1 := { g with last_updated := now, turn_cnt := g.turn_cnt + 1 }
          if respondant.has_card card then
            let rec1 : AskRecord :=
              { turn_cnt := g1.turn_cnt, asker := asker_id, respondant := respondant_id,
                card := card, success := true }
            let g2 := { g1 with asks := g1.asks ++ [rec1] }
            let g3 := g2.setPlayer asker_id (fun p => p.add_card card)
            let g4 := g3.setPlayer respondant_id (fun p => p.remove_card card)
            (.ok rec1, g4)
          else
            let rec0 : AskRecord :=
              { turn_cnt := g1.turn_cnt, asker := asker_id, respondant := respondant_id,
                card := card, success := false }
            let g2 := { g1 with asks := g1.asks ++ [rec0], player_turn := some respondant_id }
            (.ok rec0, g2)

/-- The final lines shared verbatim by `claim`, `claim_opp_unopposed` and
`claim_counter`: repick the turn holder if their hand emptied, then return
the record, the turn holder and the completion flag. -/
def Game.finish_resolution (g : Game) (pick : List String → String) (rec : ClaimRecord) :
    Except String (ClaimRecord × Option String × Bool) × Game :=
  match g.repick_if_empty pick with
  | .ok g7 => (.ok (rec, g7.player_turn, g7.doneFlag), g7)
  | .error e => (.error e, g)

/-- The in-place half-suit resolution block shared verbatim by `claim`,
`claim_opp_unopposed` and `claim_counter`: mark the half suit claimed by
`team`/`pid`, add the point to `team` on success and to its opponent
otherwise, record the success flag, strip the half suit from every hand,
set the status, clear the pass list, and finish.  (The claim-record
append, which in the Python text is interleaved with these statements but
touches a disjoint field, is performed by the callers beforehand.) -/
def Game.resolve_claim (g : Game) (pick : List String → String) (rec : ClaimRecord)
    (team : TeamId) (pid : String) (hs : HalfSuits) (ok : Bool) (st : GameStatus) :
    Except String (ClaimRecord × Option String × Bool) × Game :=
  let g2 := g.setHalfSuit hs (fun h =>
    { h with claimed := true, claimed_team := some team, claimed_player := some pid })
  let g3 := if ok then (g2.addScore team).setHalfSuit hs
              (fun h => { h with claimed_success := some true })
            else (g2.addScore team.opp).setHalfSuit hs
              (fun h => { h with claimed_success := some false })
  let g4 := g3.remove_half_suit hs
  let g5 := { g4 with status := st, counter_claim_passed := none }
  g5.finish_resolution pick rec

/-- `Game.claim` (claim for the claimant's own side; no distribution
branching: the outcome is `_check_assignment` alone). -/
def Game.claim (g : Game) (now : Nat) (pick : List String → String)
    (claimant_id : String) (hs : HalfSuits) (assignment : List (String × String)) :
    Except String (ClaimRecord × Option String × Bool) × Game :=
  match g.getPlayer claimant_id with
  | none => (.error "Claimant not found", g)
  | some claimant =>
    if g.status ≠ GameStatus.ACTIVE_ASK then (.error "Cannot claim right now", g)
    else if (g.getHalfSuit hs).claimed then (.error "Cannot claim previously claimed suit", g)
    else if ¬ g.valid_assignment assignment hs then (.error "Invalid assignment", g)
    else
      let g1 := { g with last_updated := now }
      let ok := g1.check_assignment assignment
      let rec1 : ClaimRecord :=
        { turn_cnt := g1.turn_cnt, team := claimant.team, claimant := claimant_id,
          half_suit := hs, is_for_other := false, is_counter := false,
          success := ok, scenario := .CLAIM_WITHIN_TEAM }
      let g2 := { g1 with claims := g1.claims ++ [rec1] }
      g2.resolve_claim pick rec1 claimant.team claimant_id hs ok g2.status

/-- `Game.claim_opp` (open the counter-claim window for the opposing team). -/
def Game.claim_opp (g : Game) (now : Nat) (claimant_id : String) (suit : HalfSuits) :
    Except String ClaimRecord × Game :=
  match g.getPlayer claimant_id with
  | none => (.error "Claimant not found", g)
  | some claimant =>
    if g.status ≠ GameStatus.ACTIVE_ASK then (.error "Cannot claim right now", g)
    else if (g.getHalfSuit suit).claimed then (.error "Cannot claim previously claimed suit", g)
    else
      let g1 := { g with last_updated := now, status := GameStatus.ACTIVE_COUNTER, counter_claim_passed := some [] }
      let rec1 : ClaimRecord :=
        { turn_cnt := g1.turn_cnt, team := claimant.team, claimant := claimant_id,
          half_suit := suit, is_for_other := true, is_counter := false,
          success := false, scenario := .CLAIM_OPP_TEAM_AWAITING }
      let g2 := { g1 with claims := g1.claims ++ [rec1] }
      (.ok rec1, g2)

/-- `Game.claim_opp_unopposed` (all opposing members passed, the original
claimant now supplies the assignment). -/
def Game.claim_opp_unopposed (g : Game) (now : Nat) (pick : List String → String)
    (assignment : List (String × String)) :
    Except String (ClaimRecord × Option String × Bool) × Game :=
  match g.claims.getLast? with
  | none => (.error "Cannot proceed with non-existant claim", g)
  | some claim =>
    if g.status ≠ GameStatus.ACTIVE_COUNTER ∨ claim.scenario ≠ ClaimScenario.CLAIM_OPP_TEAM_AWAITING then
      (.error "Cannot proceed with non-existant claim", g)
    else if (g.counter_claim_passed.getD []).length ≠ (g.getTeam claim.team.opp).players.length then
      (.error "Not everyone in the opposing team has agreed to pass", g)
    else if assignment.any (fun kv => ((g.getPlayer kv.2).map (fun p => p.team == claim.team)).getD true) then
      (.error "Cannot include teammate in claim for opponent team", g)
    else
      let hs := claim.half_suit
      if ¬ g.valid_assignment assignment hs then (.error "Invalid assignment", g)
      else
        let g1 := { g with last_updated := now }
        let ok := g1.check_assignment assignment
        let rec1 : ClaimRecord :=
          { claim with scenario := .CLAIM_OPP_TEAM_UNOPPOSED, countered := some false,
                       success := ok }
        let g2 := { g1 with claims := g1.claims.dropLast ++ [rec1] }
        g2.resolve_claim pick rec1 claim.team claim.claimant hs ok GameStatus.ACTIVE_ASK

/-- `Game.claim_counter`.  Note: `self.last_updated` is assigned *before* the
counter-claimant team check and the assignment validity check, so those two
rejections return a state whose timestamp has already been overwritten. -/
def Game.claim_counter (g : Game) (now : Nat) (pick : List String → String)
    (claimant_id : String) (assignment : List (String × String)) :
    Except String (ClaimRecord × Option String × Bool) × Game :=
  match g.getPlayer claimant_id with
  | none => (.error "Claimant not found", g)
  | some claimant =>
    match g.claims.getLast? with
    | none => (.error "Cannot claim right now", g)
    | some prev_claim =>
      if g.status ≠ GameStatus.ACTIVE_COUNTER ∨ prev_claim.scenario ≠ ClaimScenario.CLAIM_OPP_TEAM_AWAITING then
        (.error "Cannot claim right now", g)
      else if (g.counter_claim_passed.map (fun l => l.contains claimant_id)).getD false then
        (.error "Player has passed on the counter claim", g)
      else
        let g1 := { g with last_updated := now }
        if claimant.team = prev_claim.team then
          (.error "Cannot counter claim for claim by teammate", g1)
        else if ¬ g1.valid_assignment assignment prev_claim.half_suit then
          (.error "Invalid assignment", g1)
        else
          let hs := prev_claim.half_suit
          let prev1 : ClaimRecord :=
            { prev_claim with scenario := .CLAIM_OPP_TEAM_OPPOSED, success := false,
                              countered := some true }
          let g2 := { g1 with claims := g1.claims.dropLast ++ [prev1] }
          let ok := g2.check_assignment assignment
          let rec1 : ClaimRecord :=
            { turn_cnt := g2.turn_cnt, team := claimant.team, claimant := claimant_id,
              half_suit := hs, is_for_other := false, is_counter := true,
              success := ok, scenario := .CLAIM_COUNTER }
          let g3 := { g2 with claims := g2.claims ++ [rec1] }
          g3.resolve_claim pick rec1 claimant.team claimant_id hs ok GameStatus.ACTIVE_ASK

/-- `Game.claim_counter_pass`. -/
def Game.claim_counter_pass (g : Game) (now : Nat) (passer_id : String) :
    Except String Bool × Game :=
  match g.getPlayer passer_id with
  | none => (.error "Claimant not found", g)
  | some passer =>
    match g.claims.getLast? with
    | none => (.error "Cannot claim right now", g)
    | some claim =>
      if g.status ≠ GameStatus.ACTIVE_COUNTER ∨ claim.scenario ≠ ClaimScenario.CLAIM_OPP_TEAM_AWAITING then
        (.error "Cannot claim right now", g)
      else if passer.team = claim.team then
        (.error "Cannot pass on counter for a claim by teammate", g)
      else
        let passed := g.counter_claim_passed.getD []
        let passed1 := if passer_id ∈ passed then passed else passed ++ [passer_id]
        let g1 := { g with last_updated := now, counter_claim_passed := some passed1 }
        (.ok (passed1.length == (g1.getTeam claim.team.opp).players.length), g1)

/-! ## The parallel claim resolver of `app/core/claim_validator.py` -/

/-- The slice of `app/models/game_models.py` `Player` that
`ClaimValidator.validate_claim` reads (team ids are 1/2 here; hands are card
`unique_id` strings). -/
structure VPlayer where
  id : String
  name : String
  team_id : Nat
  hand : List String
deriving DecidableEq, Repr

/-- `ClaimOutcome` from `app/models/enums.py` (its actual seven members). -/
inductive ClaimOutcome where
  | OWN_TEAM_CORRECT | OWN_TEAM_INCORRECT | COUNTER_CORRECT | COUNTER_INCORRECT
  | OTHER_TEAM_CORRECT | OTHER_TEAM_INCORRECT | SPLIT_AUTO_INCORRECT
deriving DecidableEq, Repr

/-- `ClaimResult` from `app/core/claim_validator.py`. -/
structure ClaimResult where
  outcome : ClaimOutcome
  winning_team : Nat
  requires_counter_claim : Bool
  is_correct : Bool
deriving DecidableEq, Repr

/-- `ClaimValidator._get_actual_card_locations`: for every card of the half
suit, the first player holding it (id and team), or `none` when no hand has
it. -/
def vLocations (players : List VPlayer) (halfSuitCards : List String) :
    List (String × Option (String × Nat)) :=
  halfSuitCards.map (fun cid =>
    (cid, (players.find? (fun p => p.hand.any (fun c => c == cid))).map
            (fun p => (p.id, p.team_id))))

/-- `ClaimValidator._check_assignments_correctness`. -/
def vCheckAssignments (assignments : List (String × String))
    (locs : List (String × Option (String × Nat))) : Bool :=
  assignments.all (fun kv =>
    match locs.lookup kv.1 with
    | none => false
    | some none => false
    | some (some pl) => pl.1 == kv.2)

/-- The per-team card count of `ClaimValidator._analyze_card_distribution`
(a card whose location is `None` counts for neither team). -/
def vCountTeam (locs : List (String × Option (String × Nat))) (team : Nat) : Nat :=
  (locs.filter (fun l => (l.2.map Prod.snd) == some team)).length

/-- `2 if claimant_team == 1 else 1`. -/
def opposingOf (claimant_team : Nat) : Nat :=
  if claimant_team = 1 then 2 else 1

/-- `ClaimValidator.validate_claim`.  A missing claimant makes the Python
code raise out of its own exception handler (`claimant_team` is unbound
there), modelled as `none`.  In the all-with-opposing-team branch,
`_handle_all_cards_with_opposing_team` constructs
`ClaimOutcome.AWAITING_COUNTER`, a member that does not exist on the
`ClaimOutcome` enum; the resulting AttributeError is swallowed by the
catch-all of `validate_claim`, whose default result is returned instead. -/
def validate_claim (players : List VPlayer) (halfSuitCards : List String)
    (claimant_id : String) (assignments : List (String × String))
    (claim_for_other_team : Bool) : Option ClaimResult :=
  match players.find? (fun p => p.id == claimant_id) with
  | none => none
  | some claimant =>
    let ct := claimant.team_id
    let ot := opposingOf ct
    let locs := vLocations players halfSuitCards
    if claim_for_other_team then
      if vCheckAssignments assignments locs then
        some { outcome := .OTHER_TEAM_CORRECT, winning_team := ct,
               requires_counter_claim := false, is_correct := true }
      else
        some { outcome := .OTHER_TEAM_INCORRECT, winning_team := ot,
               requires_counter_claim := false, is_correct := false }
    else if vCountTeam locs ct = 6 then
      if vCheckAssignments assignments locs then
        some { outcome := .OWN_TEAM_CORRECT, winning_team := ct,
               requires_counter_claim := false, is_correct := true }
      else
        some { outcome := .OWN_TEAM_INCORRECT, winning_team := ot,
               requires_counter_claim := false, is_correct := false }
    else if vCountTeam locs ot = 6 then
      some { outcome := .OWN_TEAM_INCORRECT, winning_team := ot,
             requires_counter_claim := false, is_correct := false }
    else
      some { outcome := .SPLIT_AUTO_INCORRECT, winning_team := ot,
             requires_counter_claim := false, is_correct := false }

/-! ## Statement helpers -/

/-- The player holds a card with this id (how `Player.has_card` tests). -/
def holdsId (p : Player) (cid : String) : Bool :=
  p.hand.any (fun c => c.id == cid)

/-- The true holder of a card id: the first player whose hand contains it. -/
def Game.holderOf (g : Game) (cid : String) : Option String :=
  (g.players.find? (fun p => holdsId p cid)).map Player.id

/-- Dict-key uniqueness of the `players` dict. -/
def Game.NodupIds (g : Game) : Prop :=
  (g.players.map Player.id).Nodup

/-- Each physical card sits in at most one hand. -/
def Game.UniqueHolders (g : Game) : Prop :=
  ∀ p1 ∈ g.players, ∀ p2 ∈ g.players, ∀ cid,
    holdsId p1 cid = true → holdsId p2 cid = true → p1 = p2

def Game.scoreSum (g : Game) : Nat := g.team1.score + g.team2.score

def Game.claimedCount (g : Game) : Nat :=
  (g.half_suits.filter (fun h => h.claimed)).length

/-- The `half_suits` dict has exactly the nine half-suit keys, in creation
order. -/
def Game.hsKeysOk (g : Game) : Prop :=
  g.half_suits.map HalfSuit.half_suit = HalfSuits.all

/-- While a counter-claim window is open, the awaited half suit is still
unclaimed. -/
def Game.awaitingOk (g : Game) : Prop :=
  g.status = GameStatus.ACTIVE_COUNTER →
    ∀ c, g.claims.getLast? = some c →
      c.scenario = ClaimScenario.CLAIM_OPP_TEAM_AWAITING →
      (g.getHalfSuit c.half_suit).claimed = false

/-- The score/claimed-count coupling invariant (with the auxiliary facts its
preservation needs). -/
def Game.ScoreInv (g : Game) : Prop :=
  g.hsKeysOk ∧ g.scoreSum = g.claimedCount ∧ g.awaitingOk

/-- `random.choice` returns an element of its (non-empty) argument. -/
def goodPick (pick : List String → String) : Prop :=
  ∀ l, l ≠ [] → pick l ∈ l

/-- `random.shuffle` permutes the deck in place. -/
def goodShuf (shuf : List Card → List Card) : Prop :=
  ∀ l, (shuf l).Perm l

/-- One engine operation, with arbitrary caller-supplied arguments.  The
resulting state is taken from the operation even when it reports an error,
exactly as a raised Python exception leaves the object behind. -/
inductive Game.Step : Game → Game → Prop where
  | join (g : Game) (now : Nat) (id name : String) :
      Game.Step g (g.join_player now id name).2
  | leave (g : Game) (now : Nat) (id : String) :
      Game.Step g (g.leave_player now id).2
  | swap (g : Game) (now : Nat) (id : String) :
      Game.Step g (g.team_swap_player now id).2
  | start (g : Game) (now : Nat) (shuf : List Card → List Card)
      (pick : List String → String) (hs : goodShuf shuf) (hp : goodPick pick) :
      Game.Step g (g.start_game now shuf pick).2
  | ask (g : Game) (now : Nat) (a r : String) (c : Card) :
      Game.Step g (g.ask now a r c).2
  | claim (g : Game) (now : Nat) (pick : List String → String) (cid : String)
      (hsuit : HalfSuits) (asg : List (String × String)) (hp : goodPick pick) :
      Game.Step g (g.claim now pick cid hsuit asg).2
  | claim_opp (g : Game) (now : Nat) (cid : String) (suit : HalfSuits) :
      Game.Step g (g.claim_opp now cid suit).2
  | claim_opp_unopposed (g : Game) (now : Nat) (pick : List String → String)
      (asg : List (String × String)) (hp : goodPick pick) :
      Game.Step g (g.claim_opp_unopposed now pick asg).2
  | claim_counter (g : Game) (now : Nat) (pick : List String → String)
      (cid : String) (asg : List (String × String)) (hp : goodPick pick) :
      Game.Step g (g.claim_counter now pick cid asg).2
  | claim_counter_pass (g : Game) (now : Nat) (pid : String) :
      Game.Step g (g.claim_counter_pass now pid).2

/-- States reachable from a fresh `Game(settings)` by engine operations. -/
inductive Game.Reachable (settings : GameSettings) : Game → Prop where
  | init : Game.Reachable settings (Game.init settings)
  | step {g g' : Game} : Game.Reachable settings g → g.Step g' →
      Game.Reachable settings g'

/-! ## Basic facts about the catalog -/

/-- Parsing a deck card id returns the card's rank and suit. -/
theorem deck_id_round_trip :
    ∀ c ∈ create_all_cards, id_to_rank_suit c.id = some (c.rank, c.suit) := by
  decide

/-- The 54 card ids are pairwise distinct. -/
theorem deck_ids_nodup : (create_all_cards.map Card.id).Nodup := by
  decide

/-- Every half suit has exactly six cards in the deck. -/
theorem deck_half_suit_count :
    ∀ hs : HalfSuits,
      ((create_all_cards.filter (fun c => c.half_suit == hs)).map Card.id).length = 6 := by
  intro hs
  cases hs <;> decide

/-- On the two-element team type, the opponent of a different team is that
team. -/
theorem TeamId.opp_of_ne : ∀ t u : TeamId, t ≠ u → t.opp = u := by
  intro t u
  cases t <;> cases u <;> decide

theorem TeamId.opp_ne : ∀ t : TeamId, t.opp ≠ t := by
  intro t
  cases t <;> decide

/-! ## Lookup lemmas -/

theorem find?_map_comm {α β : Type} (f : α → β) (p : β → Bool) (q : α → Bool)
    (l : List α) (h : ∀ a, p (f a) = q a) :
    (l.map f).find? p = (l.find? q).map f := by
  induction l with
  | nil => rfl
  | cons a t ih =>
    by_cases hq : q a
    · simp [List.find?, h a, hq]
    · simp only [List.map_cons, List.find?]
      rw [h a]
      simp only [hq]
      exact ih

theorem Game.getPlayer_spec {g : Game} {id : String} {p : Player}
    (h : g.getPlayer id = some p) : p ∈ g.players ∧ p.id = id := by
  refine ⟨List.mem_of_find?_eq_some h, ?_⟩
  have := List.find?_some h
  simpa using this

theorem find?_id_of_mem : ∀ {l : List Player}, (l.map Player.id).Nodup →
    ∀ {p : Player}, p ∈ l → l.find? (fun q => q.id == p.id) = some p := by
  intro l
  induction l with
  | nil => intro _ p hp; cases hp
  | cons a t ih =>
    intro hnd p hp
    simp only [List.map_cons, List.nodup_cons] at hnd
    rcases List.mem_cons.mp hp with rfl | h
    · simp [List.find?]
    · have hne : a.id ≠ p.id := fun he => hnd.1 (he ▸ List.mem_map_of_mem Player.id h)
      simp only [List.find?, beq_eq_false_iff_ne.mpr hne]
      exact ih hnd.2 h

theorem Game.getPlayer_of_mem {g : Game} (hnd : g.NodupIds) {p : Player}
    (hp : p ∈ g.players) : g.getPlayer p.id = some p :=
  find?_id_of_mem hnd hp

/-! ## Semantics of `_valid_assignment` and `_check_assignment` -/

theorem valid_assignment_parts {g : Game} {asg : List (String × String)} {hs : HalfSuits}
    (h : g.valid_assignment asg hs = true) :
    (∀ kv ∈ asg,
       ∃ r s, id_to_rank_suit kv.1 = some (r, s) ∧
         (∃ card, g.get_card r s = some card ∧ card.half_suit = hs) ∧
         (g.getPlayer kv.2).isSome = true) ∧
    allSameTeam (asg.filterMap (fun kv => (g.getPlayer kv.2).map Player.team)) = true ∧
    ((g.cards.filter (fun c => c.half_suit == hs)).map Card.id).Perm (asg.map Prod.fst) := by
  unfold Game.valid_assignment at h
  simp only [Bool.and_eq_true, List.all_eq_true, decide_eq_true_eq] at h
  obtain ⟨⟨h1, h2⟩, h3⟩ := h
  refine ⟨?_, h2, Multiset.coe_eq_coe.mp h3⟩
  intro kv hkv
  have hx := h1 kv hkv
  cases hparse : id_to_rank_suit kv.1 with
  | none => rw [hparse] at hx; cases hx
  | some rs =>
    obtain ⟨r, s⟩ := rs
    rw [hparse] at hx
    dsimp only at hx
    cases hcard : g.get_card r s with
    | none => rw [hcard] at hx; cases hx
    | some card =>
      rw [hcard] at hx
      dsimp only at hx
      simp only [Bool.and_eq_true, beq_iff_eq] at hx
      exact ⟨r, s, rfl, ⟨card, hcard, hx.1⟩, hx.2⟩

/-- Every key of a valid assignment is the id of a deck card of the half
suit. -/
theorem key_card {g : Game} {asg : List (String × String)} {hs : HalfSuits}
    (hperm : ((g.cards.filter (fun c => c.half_suit == hs)).map Card.id).Perm (asg.map Prod.fst))
    {kv : String × String} (hkv : kv ∈ asg) :
    ∃ c ∈ g.cards, c.half_suit = hs ∧ c.id = kv.1 := by
  have h1 : kv.1 ∈ asg.map Prod.fst := List.mem_map_of_mem Prod.fst hkv
  have h2 := hperm.mem_iff.mpr h1
  simp only [List.mem_map, List.mem_filter, beq_iff_eq] at h2
  obtain ⟨c, ⟨hc, hhs⟩, hid⟩ := h2
  exact ⟨c, hc, hhs, hid⟩

/-- The `_check_assignment` entry test for a key that is a deck card id
reduces to "the named player holds that card id". -/
theorem check_assignment_entry {g : Game} (Hdeck : g.cards.Perm create_all_cards)
    {c : Card} (hc : c ∈ g.cards) (v : String) :
    (match id_to_rank_suit c.id with
     | none => false
     | some (r, s) =>
       match g.get_card r s with
       | none => false
       | some card =>
         match g.getPlayer v with
         | none => false
         | some p => p.has_card card) =
    (match g.getPlayer v with
     | none => false
     | some p => holdsId p c.id) := by
  have hmem : c ∈ create_all_cards := Hdeck.mem_iff.mp hc
  rw [deck_id_round_trip c hmem]
  have hfind : ∃ card, g.get_card c.rank c.suit = some card ∧ card.id = c.id := by
    unfold Game.get_card
    have hx : (g.cards.find? (fun x => x.id == unique_card_id c.rank c.suit)).isSome := by
      rw [List.find?_isSome]
      exact ⟨c, hc, by simp [Card.id]⟩
    obtain ⟨card, hcard⟩ := Option.isSome_iff_exists.mp hx
    refine ⟨card, hcard, ?_⟩
    have hpred := List.find?_some hcard
    simpa [Card.id] using hpred
  obtain ⟨card, hcard, hid⟩ := hfind
  dsimp only
  rw [hcard]
  cases g.getPlayer v with
  | none => rfl
  | some p => simp [Player.has_card, holdsId, hid]

/-- If every entry of a valid assignment names the true holder of its card,
`_check_assignment` reports success. -/
theorem check_assignment_true_of_correct {g : Game} {asg : List (String × String)}
    {hs : HalfSuits}
    (Hdeck : g.cards.Perm create_all_cards) (Hnd : g.NodupIds)
    (Hva : g.valid_assignment asg hs = true)
    (Hcor : ∀ kv ∈ asg, g.holderOf kv.1 = some kv.2) :
    g.check_assignment asg = true := by
  obtain ⟨_, _, hperm⟩ := valid_assignment_parts Hva
  unfold Game.check_assignment
  rw [List.all_eq_true]
  intro kv hkv
  obtain ⟨c, hc, hchs, hcid⟩ := key_card hperm hkv
  show (match id_to_rank_suit kv.1 with
     | none => false
     | some (r, s) =>
       match g.get_card r s with
       | none => false
       | some card =>
         match g.getPlayer kv.2 with
         | none => false
         | some p => p.has_card card) = true
  rw [← hcid, check_assignment_entry Hdeck hc]
  have hhold := Hcor kv hkv
  unfold Game.holderOf at hhold
  cases hfind : g.players.find? (fun p => holdsId p kv.1) with
  | none => rw [hfind] at hhold; cases hhold
  | some q =>
    rw [hfind] at hhold
    have hqid : q.id = kv.2 := by simpa using hhold
    have hqmem := List.mem_of_find?_eq_some hfind
    have hqholds : holdsId q kv.1 = true := by
      have hq := List.find?_some hfind
      simpa using hq
    have hgp : g.getPlayer kv.2 = some q := hqid ▸ Game.getPlayer_of_mem Hnd hqmem
    rw [hgp]
    dsimp only
    rw [hcid]
    exact hqholds

/-- If some entry of a valid assignment names a player other than the true
holder of its card, `_check_assignment` reports failure. -/
theorem check_assignment_false_of_wrong {g : Game} {asg : List (String × String)}
    {hs : HalfSuits}
    (Hdeck : g.cards.Perm create_all_cards) (Huh : g.UniqueHolders)
    (Hva : g.valid_assignment asg hs = true)
    (Hw : ∃ kv ∈ asg, g.holderOf kv.1 ≠ some kv.2) :
    g.check_assignment asg = false := by
  obtain ⟨_, _, hperm⟩ := valid_assignment_parts Hva
  obtain ⟨kv, hkv, hne⟩ := Hw
  cases hchk : g.check_assignment asg with
  | false => rfl
  | true =>
    exfalso
    unfold Game.check_assignment at hchk
    rw [List.all_eq_true] at hchk
    have hentry := hchk kv hkv
    obtain ⟨c, hc, hchs, hcid⟩ := key_card hperm hkv
    rw [show kv.1 = c.id from hcid.symm] at hentry
    rw [check_assignment_entry Hdeck hc] at hentry
    cases hgp : g.getPlayer kv.2 with
    | none => rw [hgp] at hentry; cases hentry
    | some p =>
      rw [hgp] at hentry
      obtain ⟨hpmem, hpid⟩ := Game.getPlayer_spec hgp
      apply hne
      unfold Game.holderOf
      cases hfind : g.players.find? (fun q => holdsId q kv.1) with
      | none =>
        rw [List.find?_eq_none] at hfind
        exact absurd (hcid ▸ hentry) (by simpa using hfind p hpmem)
      | some q =>
        have hqmem := List.mem_of_find?_eq_some hfind
        have hqholds : holdsId q kv.1 = true := by
          have hq := List.find?_some hfind
          simpa using hq
        have hqp : q = p := Huh q hqmem p hpmem kv.1 hqholds (hcid ▸ hentry)
        subst hqp
        simp [hpid]

/-- All players named by a valid assignment are on one common team. -/
theorem valid_assignment_common_team {g : Game} {asg : List (String × String)}
    {hs : HalfSuits} (Hva : g.valid_assignment asg hs = true) :
    ∃ t, ∀ kv ∈ asg, ∀ p, g.getPlayer kv.2 = some p → p.team = t := by
  obtain ⟨hentries, hteam, _⟩ := valid_assignment_parts Hva
  cases asg with
  | nil => exact ⟨TeamId.TEAM_1, by intro kv h; cases h⟩
  | cons kv0 rest =>
    obtain ⟨r, s, _, _, hsome⟩ := hentries kv0 (List.mem_cons_self _ _)
    obtain ⟨p0, hp0⟩ := Option.isSome_iff_exists.mp hsome
    refine ⟨p0.team, ?_⟩
    intro kv hkv p hp
    have hhead : ((kv0 :: rest).filterMap (fun kv => (g.getPlayer kv.2).map Player.team))
        = p0.team :: rest.filterMap (fun kv => (g.getPlayer kv.2).map Player.team) := by
      simp [List.filterMap_cons, hp0]
    rw [hhead] at hteam
    have hmem : p.team ∈ (kv0 :: rest).filterMap (fun kv => (g.getPlayer kv.2).map Player.team) := by
      rw [List.mem_filterMap]
      exact ⟨kv, hkv, by rw [hp]; rfl⟩
    rw [hhead] at hmem
    rcases List.mem_cons.mp hmem with h | h
    · exact h
    · unfold allSameTeam at hteam
      rw [List.all_eq_true] at hteam
      have := hteam _ h
      simpa using this

/-- Under the default `RANDOM` turn-transfer setting, the end-of-claim
turn-repick step only ever rewrites `player_turn`. -/
theorem repick_shape (g : Game) (pick : List String → String)
    (Hset : g.settings.hand_complete_turn_transfer = GameHandCompleteTurnTransfer.RANDOM)
    (Hturn : ∀ pt, g.player_turn = some pt → (g.getPlayer pt).isSome = true) :
    ∃ t, g.repick_if_empty pick = .ok { g with player_turn := t } := by
  have heta : ({ g with player_turn := g.player_turn } : Game) = g := rfl
  unfold Game.repick_if_empty
  cases hpt : g.player_turn with
  | none =>
    refine ⟨none, ?_⟩
    dsimp only
    rw [← hpt, heta]
  | some pt =>
    obtain ⟨p, hp⟩ := Option.isSome_iff_exists.mp (Hturn pt hpt)
    dsimp only
    rw [hp]
    dsimp only
    by_cases hlen : p.hand.length = 0
    · rw [if_pos hlen]
      unfold Game.pick_playable_player
      rw [hpt]
      dsimp only
      rw [Hset]
      dsimp only
      rw [hp]
      dsimp only
      split
      · exact ⟨g.player_turn, by rw [heta]⟩
      · exact ⟨_, rfl⟩
    · rw [if_neg hlen]
      exact ⟨g.player_turn, by rw [heta]⟩

/-- Looking a player up after an in-place update of one entry. -/
theorem Game.getPlayer_setPlayer (g : Game) (id x : String) (f : Player → Player)
    (hf : ∀ p, (f p).id = p.id) :
    (g.setPlayer id f).getPlayer x =
      (g.getPlayer x).map (fun p => if p.id == id then f p else p) := by
  unfold Game.setPlayer Game.getPlayer
  dsimp only
  exact find?_map_comm _ _ _ _ (fun a => by by_cases h : (a.id == id) = true <;> simp [h, hf a])

/-- C3: For every legal ask (ActiveAsk, asker holds the turn, respondent on
the other team with a non-empty hand, asker holds a card of the asked card's
half suit): if the respondent truly holds the card, the card moves from the
respondent's hand to the asker's hand and the turn holder is unchanged, with
an `AskRecord` appended with `success = true`; if the respondent does not
hold the card, no hand changes at all, the turn holder becomes exactly the
named respondent, and an `AskRecord` with `success = false` is appended. -/
theorem C3_ask (g : Game) (now : Nat) (asker_id respondant_id : String) (card : Card)
    (asker respondant : Player)
    (Hturn : g.player_turn = some asker_id)
    (Hst : g.status = GameStatus.ACTIVE_ASK)
    (Ha : g.getPlayer asker_id = some asker)
    (Hr : g.getPlayer respondant_id = some respondant)
    (Hteam : asker.team ≠ respondant.team)
    (Hhs : asker.has_half_suit card.half_suit = true)
    (Hbl : g.settings.allow_bluffs = true)
    (Hne : respondant.hand.length ≠ 0) :
    (respondant.has_card card = true → asker.has_card card = false →
      ∃ g' rec, g.ask now asker_id respondant_id card = (.ok rec, g') ∧
        rec = { turn_cnt := g.turn_cnt + 1, asker := asker_id,
                respondant := respondant_id, card := card, success := true } ∧
        g'.player_turn = g.player_turn ∧
        g'.getPlayer asker_id = some { asker with hand := asker.hand ++ [card] } ∧
        g'.getPlayer respondant_id =
          some { respondant with hand := respondant.hand.filter (fun c => c.id != card.id) } ∧
        (∀ q ∈ g.players, q.id ≠ asker_id → q.id ≠ respondant_id → q ∈ g'.players) ∧
        g'.asks = g.asks ++ [rec]) ∧
    (respondant.has_card card = false →
      ∃ g' rec, g.ask now asker_id respondant_id card = (.ok rec, g') ∧
        rec = { turn_cnt := g.turn_cnt + 1, asker := asker_id,
                respondant := respondant_id, card := card, success := false } ∧
        g'.players = g.players ∧
        g'.player_turn = some respondant_id ∧
        g'.asks = g.asks ++ [rec]) := by
  have haid : asker.id = asker_id := (Game.getPlayer_spec Ha).2
  have hrid : respondant.id = respondant_id := (Game.getPlayer_spec Hr).2
  have hids : asker_id ≠ respondant_id := by
    intro he
    rw [he, Hr] at Ha
    exact Hteam (by injection Ha with h; rw [h])
  constructor
  · intro hrc hac
    have key : ∀ gbase : Game, gbase.players = g.players →
        ((((gbase.setPlayer asker_id (fun p => p.add_card card)).setPlayer respondant_id
            (fun p => p.remove_card card)).getPlayer asker_id
            = some { asker with hand := asker.hand ++ [card] }) ∧
         (((gbase.setPlayer asker_id (fun p => p.add_card card)).setPlayer respondant_id
            (fun p => p.remove_card card)).getPlayer respondant_id
            = some { respondant with hand := respondant.hand.filter (fun c => c.id != card.id) }) ∧
         (∀ q ∈ g.players, q.id ≠ asker_id → q.id ≠ respondant_id →
            q ∈ ((gbase.setPlayer asker_id (fun p => p.add_card card)).setPlayer respondant_id
              (fun p => p.remove_card card)).players)) := by
      intro gbase hpl
      have hbA : gbase.getPlayer asker_id = some asker := by
        show gbase.players.find? _ = _
        rw [hpl]
        exact Ha
      have hbR : gbase.getPlayer respondant_id = some respondant := by
        show gbase.players.find? _ = _
        rw [hpl]
        exact Hr
      refine ⟨?_, ?_, ?_⟩
      · rw [Game.getPlayer_setPlayer _ _ _ _ (fun p => by unfold Player.remove_card; rfl)]
        rw [Game.getPlayer_setPlayer _ _ _ _
          (fun p => by unfold Player.add_card; split <;> rfl)]
        rw [hbA]
        simp only [Option.map_some']
        have hA : (if (asker.id == asker_id) = true then asker.add_card card else asker)
            = { asker with hand := asker.hand ++ [card] } := by
          rw [if_pos (by simp [haid])]
          unfold Player.add_card
          rw [if_pos (by simp [hac])]
        rw [hA]
        rw [if_neg (show ¬ (({ asker with hand := asker.hand ++ [card] } : Player).id
            == respondant_id) = true by simp [haid, hids])]
      · rw [Game.getPlayer_setPlayer _ _ _ _ (fun p => by unfold Player.remove_card; rfl)]
        rw [Game.getPlayer_setPlayer _ _ _ _
          (fun p => by unfold Player.add_card; split <;> rfl)]
        rw [hbR]
        simp only [Option.map_some']
        have hA : (if (respondant.id == asker_id) = true then respondant.add_card card
            else respondant) = respondant := by
          rw [if_neg (by simp only [hrid, beq_iff_eq]; exact fun h => hids h.symm)]
        rw [hA]
        rw [if_pos (by simp [hrid])]
        rfl
      · intro q hq hqa hqr
        show q ∈ (gbase.players.map _).map _
        rw [hpl]
        have h1 : (fun p => if p.id == asker_id then p.add_card card else p) q = q := by
          simp only [beq_iff_eq, hqa, if_false]
        have h2 : (fun p => if p.id == respondant_id then p.remove_card card else p) q = q := by
          simp only [beq_iff_eq, hqr, if_false]
        have hm1 := List.mem_map_of_mem
          (fun p => if p.id == asker_id then p.add_card card else p) hq
        rw [h1] at hm1
        have hm2 := List.mem_map_of_mem
          (fun p => if p.id == respondant_id then p.remove_card card else p) hm1
        rw [h2] at hm2
        exact hm2
    unfold Game.ask
    rw [Hturn, Hst]
    rw [if_neg (by simp : ¬ (some asker_id ≠ some asker_id))]
    rw [if_neg (by simp : ¬ (GameStatus.ACTIVE_ASK ≠ GameStatus.ACTIVE_ASK))]
    rw [Ha]
    dsimp only
    simp only [Hr]
    rw [if_neg Hteam]
    rw [if_neg (not_not_intro Hhs)]
    rw [if_neg (by simp [Hbl])]
    rw [if_neg Hne]
    rw [if_pos hrc]
    exact ⟨_, _, rfl, rfl, rfl, (key _ rfl).1, (key _ rfl).2.1, (key _ rfl).2.2, rfl⟩
  · intro hrc
    unfold Game.ask
    rw [Hturn, Hst]
    rw [if_neg (by simp : ¬ (some asker_id ≠ some asker_id))]
    rw [if_neg (by simp : ¬ (GameStatus.ACTIVE_ASK ≠ GameStatus.ACTIVE_ASK))]
    rw [Ha]
    dsimp only
    simp only [Hr]
    rw [if_neg Hteam]
    rw [if_neg (not_not_intro Hhs)]
    rw [if_neg (by simp [Hbl])]
    rw [if_neg Hne]
    rw [if_neg (by simp [hrc])]
    exact ⟨_, _, rfl, rfl, rfl, rfl, rfl⟩

theorem Game.pick_playable_result {g g' : Game} {pick : List String → String}
    (h : g.pick_playable_player pick = .ok g') :
    ∃ t, g' = { g with player_turn := t } := by
  unfold Game.pick_playable_player at h
  cases hpt : g.player_turn with
  | none => rw [hpt] at h; cases h
  | some pt =>
    rw [hpt] at h
    dsimp only at h
    cases hset : g.settings.hand_complete_turn_transfer with
    | FIRST => rw [hset] at h; cases h
    | RANDOM =>
      rw [hset] at h
      dsimp only at h
      cases hgp : g.getPlayer pt with
      | none => rw [hgp] at h; cases h
      | some p =>
        rw [hgp] at h
        dsimp only at h
        split at h
        · injection h with h
          exact ⟨g.player_turn, h.symm⟩
        · injection h with h
          exact ⟨_, h.symm⟩

theorem Game.repick_result {g g' : Game} {pick : List String → String}
    (h : g.repick_if_empty pick = .ok g') :
    ∃ t, g' = { g with player_turn := t } := by
  unfold Game.repick_if_empty at h
  cases hpt : g.player_turn with
  | none =>
    rw [hpt] at h
    dsimp only at h
    injection h with h
    exact ⟨g.player_turn, h.symm⟩
  | some pt =>
    rw [hpt] at h
    dsimp only at h
    cases hgp : g.getPlayer pt with
    | none => rw [hgp] at h; cases h
    | some p =>
      rw [hgp] at h
      dsimp only at h
      split at h
      · exact Game.pick_playable_result h
      · injection h with h
        exact ⟨g.player_turn, h.symm⟩

theorem Game.repick_no_error {g : Game} {pick : List String → String}
    (Hset : g.settings.hand_complete_turn_transfer = GameHandCompleteTurnTransfer.RANDOM)
    (Hturn : ∀ pt, g.player_turn = some pt → (g.getPlayer pt).isSome = true)
    {e : String} (h : g.repick_if_empty pick = .error e) : False := by
  obtain ⟨t, ht⟩ := repick_shape g pick Hset Hturn
  rw [ht] at h
  cases h

theorem Game.getTeam_addScore (g : Game) (t u : TeamId) :
    ((g.addScore t).getTeam u).score =
      (g.getTeam u).score + (if u = t then 1 else 0) := by
  cases t <;> cases u <;> simp [Game.addScore, Game.modifyTeam, Game.getTeam]

/-- The fully-validated path of `Game.claim`: the half suit resolves
immediately, the record's `success` is exactly `_check_assignment`, the
status stays ActiveAsk, and the point goes to the claimant's team on success
and to the opposing team otherwise. -/
theorem Game.claim_resolves (g : Game) (now : Nat) (pick : List String → String)
    (claimant_id : String) (hs : HalfSuits) (asg : List (String × String))
    (claimant : Player)
    (Hcl : g.getPlayer claimant_id = some claimant)
    (Hst : g.status = GameStatus.ACTIVE_ASK)
    (Hun : (g.getHalfSuit hs).claimed = false)
    (Hva : g.valid_assignment asg hs = true)
    (Hset : g.settings.hand_complete_turn_transfer = GameHandCompleteTurnTransfer.RANDOM)
    (Hturn : ∀ pt, g.player_turn = some pt → (g.getPlayer pt).isSome = true) :
    ∃ g' turn,
      g.claim now pick claimant_id hs asg =
        (.ok ({ turn_cnt := g.turn_cnt, team := claimant.team, claimant := claimant_id,
                half_suit := hs, is_for_other := false, is_counter := false,
                countered := none, success := g.check_assignment asg,
                scenario := ClaimScenario.CLAIM_WITHIN_TEAM }, turn, g'.doneFlag), g') ∧
      g'.status = GameStatus.ACTIVE_ASK ∧
      (g.check_assignment asg = true →
        (g'.getTeam claimant.team).score = (g.getTeam claimant.team).score + 1 ∧
        (g'.getTeam claimant.team.opp).score = (g.getTeam claimant.team.opp).score) ∧
      (g.check_assignment asg = false →
        (g'.getTeam claimant.team.opp).score = (g.getTeam claimant.team.opp).score + 1 ∧
        (g'.getTeam claimant.team).score = (g.getTeam claimant.team).score) := by
  unfold Game.claim
  rw [Hcl]
  dsimp only
  have hck : ({ g with last_updated := now } : Game).check_assignment asg
      = g.check_assignment asg := rfl
  rw [hck, Hst]
  rw [if_neg (by simp : ¬ (GameStatus.ACTIVE_ASK ≠ GameStatus.ACTIVE_ASK))]
  rw [if_neg (by simp [Hun])]
  rw [if_neg (not_not_intro Hva)]
  unfold Game.resolve_claim Game.finish_resolution
  dsimp only
  cases hchk : g.check_assignment asg <;> cases hT : claimant.team <;>
    (split
     case _ g7 heq =>
       obtain ⟨t, rfl⟩ := Game.repick_result heq
       refine ⟨_, _, rfl, rfl, ?_, ?_⟩ <;>
         (intro hx
          first
            | exact absurd hx (by decide)
            | exact ⟨rfl, rfl⟩)
     case _ e heq =>
       exfalso
       refine Game.repick_no_error ?_ ?_ heq
       · exact Hset
       · intro pt hpt
         have h0 : (g.players.find? (fun p => p.id == pt)).isSome = true := Hturn pt hpt
         have key : ((g.players.map (fun p : Player =>
             { p with hand := p.hand.filter (fun c => c.half_suit != hs) })).find?
               (fun p => p.id == pt)).isSome = true := by
           rw [find?_map_comm _ _ (fun p => p.id == pt) _ (fun a => rfl)]
           cases hf : g.players.find? (fun p => p.id == pt) with
           | none => rw [hf] at h0; cases h0
           | some p => rfl
         exact key)

/-- C1: For every half suit whose 6 cards are all held by players of one
team `T` and every claimant on team `T`, calling `claim` in ActiveAsk with a
valid assignment identical to the true holder map resolves the claim with
`success = true` and increments team `T`'s score by exactly 1; calling it
with a valid assignment that differs from the true holder map in at least
one entry resolves `success = false` and increments the opposing team's
score by exactly 1.  (An assignment rejected by `_valid_assignment` raises
instead of resolving, so validity is part of "calling claim" here.) -/
theorem C1_claim_correctness (g : Game) (now : Nat) (pick : List String → String)
    (claimant_id : String) (hs : HalfSuits) (T : TeamId) (claimant : Player)
    (Hdeck : g.cards.Perm create_all_cards)
    (Hnd : g.NodupIds) (Huh : g.UniqueHolders)
    (Hset : g.settings.hand_complete_turn_transfer = GameHandCompleteTurnTransfer.RANDOM)
    (Hturn : ∀ pt, g.player_turn = some pt → (g.getPlayer pt).isSome = true)
    (Hst : g.status = GameStatus.ACTIVE_ASK)
    (Hcl : g.getPlayer claimant_id = some claimant)
    (HclT : claimant.team = T)
    (Hun : (g.getHalfSuit hs).claimed = false)
    (_Hall : ∀ c ∈ g.cards, c.half_suit = hs →
      ∃ p ∈ g.players, p.team = T ∧ holdsId p c.id = true) :
    (∀ asg, g.valid_assignment asg hs = true →
      (∀ kv ∈ asg, g.holderOf kv.1 = some kv.2) →
      ∃ rec turn done g', g.claim now pick claimant_id hs asg = (.ok (rec, turn, done), g') ∧
        rec.success = true ∧
        (g'.getTeam T).score = (g.getTeam T).score + 1 ∧
        (g'.getTeam T.opp).score = (g.getTeam T.opp).score) ∧
    (∀ asg, g.valid_assignment asg hs = true →
      (∃ kv ∈ asg, g.holderOf kv.1 ≠ some kv.2) →
      ∃ rec turn done g', g.claim now pick claimant_id hs asg = (.ok (rec, turn, done), g') ∧
        rec.success = false ∧
        (g'.getTeam T.opp).score = (g.getTeam T.opp).score + 1 ∧
        (g'.getTeam T).score = (g.getTeam T).score) := by
  subst HclT
  constructor
  · intro asg Hva Hcor
    have hchk := check_assignment_true_of_correct Hdeck Hnd Hva Hcor
    obtain ⟨g', turn, heq, _, hpos, _⟩ :=
      Game.claim_resolves g now pick claimant_id hs asg claimant Hcl Hst Hun Hva Hset Hturn
    exact ⟨_, turn, _, g', heq, hchk, (hpos hchk).1, (hpos hchk).2⟩
  · intro asg Hva Hw
    have hchk := check_assignment_false_of_wrong Hdeck Huh Hva Hw
    obtain ⟨g', turn, heq, _, _, hneg⟩ :=
      Game.claim_resolves g now pick claimant_id hs asg claimant Hcl Hst Hun Hva Hset Hturn
    exact ⟨_, turn, _, g', heq, hchk, (hneg hchk).1, (hneg hchk).2⟩

theorem find?_cardid_of_mem : ∀ {l : List Card}, (l.map Card.id).Nodup →
    ∀ {c : Card}, c ∈ l → l.find? (fun x => x.id == c.id) = some c := by
  intro l
  induction l with
  | nil => intro _ c hc; cases hc
  | cons a t ih =>
    intro hnd c hc
    simp only [List.map_cons, List.nodup_cons] at hnd
    rcases List.mem_cons.mp hc with rfl | h
    · simp [List.find?]
    · have hne : a.id ≠ c.id := fun he => hnd.1 (he ▸ List.mem_map_of_mem Card.id h)
      simp only [List.find?, beq_eq_false_iff_ne.mpr hne]
      exact ih hnd.2 h

theorem deck_ids_nodup_of_perm {g : Game} (Hdeck : g.cards.Perm create_all_cards) :
    (g.cards.map Card.id).Nodup :=
  ((Hdeck.map Card.id).nodup_iff).mpr deck_ids_nodup

theorem get_card_of_mem {g : Game} (Hdeck : g.cards.Perm create_all_cards)
    {c : Card} (hc : c ∈ g.cards) : g.get_card c.rank c.suit = some c :=
  find?_cardid_of_mem (deck_ids_nodup_of_perm Hdeck) hc

theorem allSameTeam_of_common {l : List TeamId} {t : TeamId}
    (h : ∀ x ∈ l, x = t) : allSameTeam l = true := by
  cases l with
  | nil => rfl
  | cons a rest =>
    unfold allSameTeam
    rw [List.all_eq_true]
    intro x hx
    rw [h x (List.mem_cons_of_mem a hx), h a (List.mem_cons_self a rest)]
    exact beq_self_eq_true t

/-- `_valid_assignment` accepts exactly the assignments whose keys are the 6
card ids of the half suit, whose values are existing player ids, and whose
named players share one common team (any team). -/
theorem valid_assignment_iff {g : Game} (Hdeck : g.cards.Perm create_all_cards)
    (asg : List (String × String)) (hs : HalfSuits) :
    g.valid_assignment asg hs = true ↔
      (((g.cards.filter (fun c => c.half_suit == hs)).map Card.id).Perm (asg.map Prod.fst) ∧
       (∀ kv ∈ asg, (g.getPlayer kv.2).isSome = true) ∧
       (∃ t, ∀ kv ∈ asg, ∀ p, g.getPlayer kv.2 = some p → p.team = t)) := by
  constructor
  · intro h
    obtain ⟨hent, _, hperm⟩ := valid_assignment_parts h
    exact ⟨hperm, fun kv hkv => (hent kv hkv).choose_spec.choose_spec.2.2,
      valid_assignment_common_team h⟩
  · rintro ⟨hperm, hsome, t, hteam⟩
    unfold Game.valid_assignment
    simp only [Bool.and_eq_true, List.all_eq_true, decide_eq_true_eq]
    refine ⟨⟨?_, ?_⟩, ?_⟩
    · intro kv hkv
      obtain ⟨c, hc, hchs, hcid⟩ := key_card hperm hkv
      show (match id_to_rank_suit kv.1 with
        | none => false
        | some (r, s) =>
          match g.get_card r s with
          | none => false
          | some card => card.half_suit == hs && (g.getPlayer kv.2).isSome) = true
      rw [← hcid, deck_id_round_trip c (Hdeck.mem_iff.mp hc)]
      dsimp only
      rw [get_card_of_mem Hdeck hc]
      dsimp only
      rw [Bool.and_eq_true, beq_iff_eq]
      exact ⟨hchs, hsome kv hkv⟩
    · apply allSameTeam_of_common (t := t)
      intro x hx
      rw [List.mem_filterMap] at hx
      obtain ⟨kv, hkv, hmap⟩ := hx
      cases hgp : g.getPlayer kv.2 with
      | none => rw [hgp] at hmap; cases hmap
      | some p =>
        rw [hgp] at hmap
        have : p.team = x := by simpa using hmap
        rw [← this]
        exact hteam kv hkv p hgp
    · exact Multiset.coe_eq_coe.mpr hperm

/-- C10: An assignment is accepted by the `_valid_assignment` gate of
`claim`, `claim_opp_unopposed` and `claim_counter` exactly when its keys are
the 6 card ids of the targeted half suit, every value is an existing player
id, and all named players are on one single common team; the common team
need not be the claimant's own, so a regular claim whose valid assignment
names only opposing-team players is accepted, and when it matches the true
holders it resolves immediately with the claimant's team scoring. -/
theorem C10_assignment_validation (g : Game) (now : Nat) (pick : List String → String)
    (claimant_id : String) (hs : HalfSuits) (claimant : Player)
    (Hdeck : g.cards.Perm create_all_cards)
    (Hnd : g.NodupIds)
    (Hset : g.settings.hand_complete_turn_transfer = GameHandCompleteTurnTransfer.RANDOM)
    (Hturn : ∀ pt, g.player_turn = some pt → (g.getPlayer pt).isSome = true)
    (Hst : g.status = GameStatus.ACTIVE_ASK)
    (Hcl : g.getPlayer claimant_id = some claimant)
    (Hun : (g.getHalfSuit hs).claimed = false) :
    (∀ asg, g.valid_assignment asg hs = true ↔
      (((g.cards.filter (fun c => c.half_suit == hs)).map Card.id).Perm (asg.map Prod.fst) ∧
       (∀ kv ∈ asg, (g.getPlayer kv.2).isSome = true) ∧
       (∃ t, ∀ kv ∈ asg, ∀ p, g.getPlayer kv.2 = some p → p.team = t))) ∧
    (∀ asg, g.valid_assignment asg hs = true →
      (∀ kv ∈ asg, ∀ p, g.getPlayer kv.2 = some p → p.team = claimant.team.opp) →
      (∀ kv ∈ asg, g.holderOf kv.1 = some kv.2) →
      ∃ rec turn done g', g.claim now pick claimant_id hs asg = (.ok (rec, turn, done), g') ∧
        rec.success = true ∧
        (g'.getTeam claimant.team).score = (g.getTeam claimant.team).score + 1 ∧
        (g'.getTeam claimant.team.opp).score = (g.getTeam claimant.team.opp).score) := by
  constructor
  · intro asg
    exact valid_assignment_iff Hdeck asg hs
  · intro asg Hva _ Hcor
    have hchk := check_assignment_true_of_correct Hdeck Hnd Hva Hcor
    obtain ⟨g', turn, heq, _, hpos, _⟩ :=
      Game.claim_resolves g now pick claimant_id hs asg claimant Hcl Hst Hun Hva Hset Hturn
    exact ⟨_, turn, _, g', heq, hchk, (hpos hchk).1, (hpos hchk).2⟩

theorem filter_disjoint_length_le {α : Type} (p q : α → Bool) (l : List α)
    (h : ∀ x, ¬(p x = true ∧ q x = true)) :
    (l.filter p).length + (l.filter q).length ≤ l.length := by
  induction l with
  | nil => simp
  | cons a t ih =>
    rw [List.filter_cons, List.filter_cons]
    by_cases hp : p a = true
    · have hq : ¬ q a = true := fun hqa => absurd ⟨hp, hqa⟩ (h a)
      rw [if_pos hp, if_neg hq]
      simp only [List.length_cons]
      omega
    · rw [if_neg hp]
      by_cases hqa : q a = true
      · rw [if_pos hqa]
        simp only [List.length_cons]
        omega
      · rw [if_neg hqa]
        simp only [List.length_cons]
        omega

theorem opposingOf_ne (n : Nat) : opposingOf n ≠ n := by
  unfold opposingOf
  by_cases h : n = 1
  · rw [if_pos h, h]
    decide
  · rw [if_neg h]
    exact fun he => h he.symm

theorem vCountTeam_disjoint (locs : List (String × Option (String × Nat)))
    (t u : Nat) (h : t ≠ u) :
    vCountTeam locs t + vCountTeam locs u ≤ locs.length := by
  unfold vCountTeam
  apply filter_disjoint_length_le
  intro x ⟨hx1, hx2⟩
  rw [beq_iff_eq] at hx1 hx2
  rw [hx1] at hx2
  exact h (by injection hx2)

/-- C4: For every half suit whose 6 cards are held partly by each team, a
claim that is not claim-for-other-team always resolves as a loss for the
claimant's team, regardless of the submitted assignment.  Part one: the
`ClaimValidator` of the core engine takes its split branch, whose result
names the opposing team and does not consult the assignment at all (any two
assignments get the same result).  Part two: the fish engine's `Game.claim`
gives the point to the opposing team for every assignment it accepts. -/
theorem C4_split_auto_fail
    (players : List VPlayer) (halfSuitCards : List String)
    (claimant_id : String) (vclaimant : VPlayer)
    (Hfind : players.find? (fun p => p.id == claimant_id) = some vclaimant)
    (Hlen : halfSuitCards.length = 6)
    (Hct : 1 ≤ vCountTeam (vLocations players halfSuitCards) vclaimant.team_id)
    (Hot : 1 ≤ vCountTeam (vLocations players halfSuitCards) (opposingOf vclaimant.team_id))
    (g : Game) (now : Nat) (pick : List String → String)
    (fclaimant_id : String) (hs : HalfSuits) (fclaimant : Player)
    (Hdeck : g.cards.Perm create_all_cards)
    (Hnd : g.NodupIds) (Huh : g.UniqueHolders)
    (Hset : g.settings.hand_complete_turn_transfer = GameHandCompleteTurnTransfer.RANDOM)
    (Hturn : ∀ pt, g.player_turn = some pt → (g.getPlayer pt).isSome = true)
    (Hst : g.status = GameStatus.ACTIVE_ASK)
    (Hcl : g.getPlayer fclaimant_id = some fclaimant)
    (Hun : (g.getHalfSuit hs).claimed = false)
    (Hsplit1 : ∃ c ∈ g.cards, c.half_suit = hs ∧
      ∃ p ∈ g.players, p.team = TeamId.TEAM_1 ∧ holdsId p c.id = true)
    (Hsplit2 : ∃ c ∈ g.cards, c.half_suit = hs ∧
      ∃ p ∈ g.players, p.team = TeamId.TEAM_2 ∧ holdsId p c.id = true) :
    (∀ asg asg',
      validate_claim players halfSuitCards claimant_id asg false =
        some { outcome := .SPLIT_AUTO_INCORRECT,
               winning_team := opposingOf vclaimant.team_id,
               requires_counter_claim := false, is_correct := false } ∧
      validate_claim players halfSuitCards claimant_id asg false =
        validate_claim players halfSuitCards claimant_id asg' false) ∧
    (∀ asg, g.valid_assignment asg hs = true →
      ∃ rec turn done g',
        g.claim now pick fclaimant_id hs asg = (.ok (rec, turn, done), g') ∧
        rec.success = false ∧
        (g'.getTeam fclaimant.team.opp).score = (g.getTeam fclaimant.team.opp).score + 1 ∧
        (g'.getTeam fclaimant.team).score = (g.getTeam fclaimant.team).score) := by
  constructor
  · have key : ∀ asg, validate_claim players halfSuitCards claimant_id asg false =
        some { outcome := .SPLIT_AUTO_INCORRECT,
               winning_team := opposingOf vclaimant.team_id,
               requires_counter_claim := false, is_correct := false } := by
      intro asg
      unfold validate_claim
      rw [Hfind]
      dsimp only
      rw [if_neg (show ¬ (false = true) by decide)]
      have hsum := vCountTeam_disjoint (vLocations players halfSuitCards)
        vclaimant.team_id (opposingOf vclaimant.team_id)
        (fun he => opposingOf_ne vclaimant.team_id he.symm)
      have hloclen : (vLocations players halfSuitCards).length = 6 := by
        unfold vLocations
        rw [List.length_map, Hlen]
      rw [hloclen] at hsum
      rw [if_neg (show ¬ vCountTeam (vLocations players halfSuitCards)
        vclaimant.team_id = 6 by omega)]
      rw [if_neg (show ¬ vCountTeam (vLocations players halfSuitCards)
        (opposingOf vclaimant.team_id) = 6 by omega)]
    intro asg asg'
    exact ⟨key asg, (key asg).trans (key asg').symm⟩
  · intro asg Hva
    obtain ⟨t, hteam⟩ := valid_assignment_common_team Hva
    obtain ⟨_, _, hperm⟩ := valid_assignment_parts Hva
    have hwrongcard : ∃ c ∈ g.cards, c.half_suit = hs ∧
        ∃ q ∈ g.players, q.team ≠ t ∧ holdsId q c.id = true := by
      cases t with
      | TEAM_1 =>
        obtain ⟨c, hc, hchs, q, hq, hqt, hqh⟩ := Hsplit2
        exact ⟨c, hc, hchs, q, hq, by rw [hqt]; decide, hqh⟩
      | TEAM_2 =>
        obtain ⟨c, hc, hchs, q, hq, hqt, hqh⟩ := Hsplit1
        exact ⟨c, hc, hchs, q, hq, by rw [hqt]; decide, hqh⟩
    obtain ⟨c, hc, hchs, q, hq, hqt, hqh⟩ := hwrongcard
    have hkey : c.id ∈ asg.map Prod.fst := by
      apply hperm.mem_iff.mp
      exact List.mem_map_of_mem Card.id (List.mem_filter.mpr ⟨hc, by simp [hchs]⟩)
    obtain ⟨kv, hkv, hkvid⟩ := List.mem_map.mp hkey
    have hw : ∃ kv ∈ asg, g.holderOf kv.1 ≠ some kv.2 := by
      refine ⟨kv, hkv, ?_⟩
      intro hhold
      rw [hkvid] at hhold
      unfold Game.holderOf at hhold
      cases hfind : g.players.find? (fun p => holdsId p c.id) with
      | none => rw [hfind] at hhold; cases hhold
      | some q1 =>
        rw [hfind] at hhold
        have hq1id : q1.id = kv.2 := by simpa using hhold
        have hq1mem := List.mem_of_find?_eq_some hfind
        have hq1h : holdsId q1 c.id = true := by simpa using List.find?_some hfind
        have hq1q : q1 = q := Huh q1 hq1mem q hq c.id hq1h hqh
        rw [hq1q] at hq1id
        have hgp := Game.getPlayer_of_mem Hnd hq
        rw [hq1id] at hgp
        exact hqt (hteam kv hkv q hgp)
    have hchk := check_assignment_false_of_wrong Hdeck Huh Hva hw
    obtain ⟨g', turn, heq, _, _, hneg⟩ :=
      Game.claim_resolves g now pick fclaimant_id hs asg fclaimant Hcl Hst Hun Hva Hset Hturn
    exact ⟨_, turn, _, g', heq, hchk, (hneg hchk).1, (hneg hchk).2⟩

/-- Example settings: `GameSettings` places no lower bound beyond what the
caller chooses, so a two-player game is constructible. -/
def exSettings : GameSettings := { min_players := 2 }

/-- A deterministic stand-in for `random.choice` (first element). -/
def exPick : List String → String := fun l => l.headD ""

/-- The assignment mapping every card of the half suit to one player. -/
def exAsgTo (hs : HalfSuits) (pid : String) : List (String × String) :=
  ((create_all_cards.filter (fun c => c.half_suit == hs)).map Card.id).map
    (fun cid => (cid, pid))

/-- Players "a" (team 1) and "b" (team 2) join and the game starts with an
unshuffled deck: "a" holds every low half suit plus 8♠ 8♥ 8♦, "b" holds 8♣,
every high half suit and both jokers; "a" has the first turn. -/
def exStart : Game :=
  ((((Game.init exSettings).join_player 1 "a" "a").2.join_player 2 "b" "b").2.start_game
    3 id exPick).2

theorem goodShuf_id : goodShuf id := fun l => List.Perm.refl l

theorem goodPick_exPick : goodPick exPick := by
  intro l h
  cases l with
  | nil => exact absurd rfl h
  | cons a t => exact List.mem_cons_self a t

theorem exStart_reachable : Game.Reachable exSettings exStart :=
  Game.Reachable.step
    (Game.Reachable.step
      (Game.Reachable.step Game.Reachable.init (Game.Step.join _ 1 "a" "a"))
      (Game.Step.join _ 2 "b" "b"))
    (Game.Step.start _ 3 id exPick goodShuf_id goodPick_exPick)

set_option maxRecDepth 100000 in
/-- C2 counterexample: `exStart` is a reachable ActiveAsk state in which the
unclaimed half suit HEARTS_HIGH has all six cards held by "b", the team
opposing claimant "a"; yet the regular `claim` by "a" neither enters
ActiveCounter nor leaves the scores unchanged: it resolves immediately in
the CLAIM_WITHIN_TEAM scenario with `success = true` and increments team
1's score. -/
theorem C2_counterexample :
    Game.Reachable exSettings exStart ∧
    (exStart.status = GameStatus.ACTIVE_ASK ∧
     (exStart.getHalfSuit .HEARTS_HIGH).claimed = false ∧
     (∀ c ∈ exStart.cards, c.half_suit = HalfSuits.HEARTS_HIGH →
       exStart.holderOf c.id = some "b") ∧
     (exStart.getPlayer "a").map Player.team = some TeamId.TEAM_1 ∧
     (exStart.getPlayer "b").map Player.team = some TeamId.TEAM_2) ∧
    ((exStart.claim 4 exPick "a" .HEARTS_HIGH (exAsgTo .HEARTS_HIGH "b")).2.status
        = GameStatus.ACTIVE_ASK ∧
     (exStart.claim 4 exPick "a" .HEARTS_HIGH (exAsgTo .HEARTS_HIGH "b")).2.status
        ≠ GameStatus.ACTIVE_COUNTER ∧
     (exStart.claim 4 exPick "a" .HEARTS_HIGH (exAsgTo .HEARTS_HIGH "b")).2.team1.score
        = exStart.team1.score + 1 ∧
     (∀ rec ∈ (exStart.claim 4 exPick "a" .HEARTS_HIGH (exAsgTo .HEARTS_HIGH "b")).2.claims,
       rec.scenario ≠ ClaimScenario.CLAIM_OPP_TEAM_AWAITING)) :=
  ⟨exStart_reachable, by decide, by decide⟩

/-- C2 amended: in the fish engine the regular `claim` never transitions to
ActiveCounter (it resolves every accepted assignment immediately); the
ActiveCounter/AWAITING path is entered only by the separate
claim-for-opponent operation `claim_opp`, which does transition the status
to ActiveCounter and append an AWAITING claim record while leaving all
scores and hands unchanged. -/
theorem C2_claim_opp_awaiting (g : Game) (now : Nat) (claimant_id : String)
    (suit : HalfSuits) (claimant : Player)
    (Hcl : g.getPlayer claimant_id = some claimant)
    (Hst : g.status = GameStatus.ACTIVE_ASK)
    (Hun : (g.getHalfSuit suit).claimed = false) :
    ∃ rec g', g.claim_opp now claimant_id suit = (.ok rec, g') ∧
      rec.scenario = ClaimScenario.CLAIM_OPP_TEAM_AWAITING ∧
      rec.is_for_other = true ∧
      rec.half_suit = suit ∧
      g'.status = GameStatus.ACTIVE_COUNTER ∧
      g'.claims = g.claims ++ [rec] ∧
      g'.counter_claim_passed = some [] ∧
      g'.players = g.players ∧
      g'.team1 = g.team1 ∧ g'.team2 = g.team2 ∧
      g'.half_suits = g.half_suits := by
  unfold Game.claim_opp
  rw [Hcl]
  dsimp only
  rw [Hst]
  rw [if_neg (by simp : ¬ (GameStatus.ACTIVE_ASK ≠ GameStatus.ACTIVE_ASK))]
  rw [if_neg (by simp [Hun])]
  exact ⟨_, _, rfl, rfl, rfl, rfl, rfl, rfl, rfl, rfl, rfl, rfl, rfl⟩

/-! ## Field lemmas for the score invariant -/

theorem Game.modifyTeam_status (g : Game) (t : TeamId) (f : Team → Team) :
    (g.modifyTeam t f).status = g.status := by cases t <;> rfl

theorem Game.modifyTeam_claims (g : Game) (t : TeamId) (f : Team → Team) :
    (g.modifyTeam t f).claims = g.claims := by cases t <;> rfl

theorem Game.modifyTeam_half_suits (g : Game) (t : TeamId) (f : Team → Team) :
    (g.modifyTeam t f).half_suits = g.half_suits := by cases t <;> rfl

theorem Game.modifyTeam_scoreSum (g : Game) (t : TeamId) (f : Team → Team)
    (hf : ∀ tm, (f tm).score = tm.score) :
    (g.modifyTeam t f).scoreSum = g.scoreSum := by
  cases t <;> simp [Game.modifyTeam, Game.scoreSum, hf]

theorem Game.addScore_status (g : Game) (t : TeamId) :
    (g.addScore t).status = g.status := Game.modifyTeam_status g t _

theorem Game.addScore_claims (g : Game) (t : TeamId) :
    (g.addScore t).claims = g.claims := Game.modifyTeam_claims g t _

theorem Game.addScore_half_suits (g : Game) (t : TeamId) :
    (g.addScore t).half_suits = g.half_suits := Game.modifyTeam_half_suits g t _

theorem Game.addScore_scoreSum (g : Game) (t : TeamId) :
    (g.addScore t).scoreSum = g.scoreSum + 1 := by
  cases t <;> simp [Game.addScore, Game.modifyTeam, Game.scoreSum] <;> omega

theorem Game.addScore_players (g : Game) (t : TeamId) :
    (g.addScore t).players = g.players := by cases t <;> rfl

theorem Game.addScore_player_turn (g : Game) (t : TeamId) :
    (g.addScore t).player_turn = g.player_turn := by cases t <;> rfl

theorem Game.addScore_settings (g : Game) (t : TeamId) :
    (g.addScore t).settings = g.settings := by cases t <;> rfl

/-- `ScoreInv` only reads the status, the claim log, the half-suit table and
the two scores. -/
theorem ScoreInv_congr {g g' : Game} (h : g.ScoreInv)
    (hst : g'.status = g.status) (hcl : g'.claims = g.claims)
    (hhs : g'.half_suits = g.half_suits)
    (hsum : g'.scoreSum = g.scoreSum) :
    g'.ScoreInv := by
  obtain ⟨h1, h2, h3⟩ := h
  refine ⟨?_, ?_, ?_⟩
  · unfold Game.hsKeysOk at h1 ⊢
    rw [hhs]
    exact h1
  · unfold Game.claimedCount
    rw [hsum, hhs]
    exact h2
  · intro hstat c hlast hscen
    rw [hst] at hstat
    rw [hcl] at hlast
    have hres := h3 hstat c hlast hscen
    unfold Game.getHalfSuit at hres ⊢
    rw [hhs]
    exact hres

/-- `ScoreInv` transport when the new status cannot be ActiveCounter. -/
theorem ScoreInv_congr_noCounter {g g' : Game} (h : g.ScoreInv)
    (hst : g'.status ≠ GameStatus.ACTIVE_COUNTER)
    (hhs : g'.half_suits = g.half_suits)
    (hsum : g'.scoreSum = g.scoreSum) :
    g'.ScoreInv := by
  obtain ⟨h1, h2, _⟩ := h
  refine ⟨?_, ?_, ?_⟩
  · unfold Game.hsKeysOk at h1 ⊢
    rw [hhs]
    exact h1
  · unfold Game.claimedCount
    rw [hsum, hhs]
    exact h2
  · intro hstat
    exact absurd hstat hst

theorem HalfSuits_all_nodup : HalfSuits.all.Nodup := by decide

theorem find?_hskey_of_mem : ∀ {l : List HalfSuit}, (l.map HalfSuit.half_suit).Nodup →
    ∀ {h : HalfSuit}, h ∈ l → l.find? (fun x => x.half_suit == h.half_suit) = some h := by
  intro l
  induction l with
  | nil => intro _ h hh; cases hh
  | cons a t ih =>
    intro hnd h hh
    simp only [List.map_cons, List.nodup_cons] at hnd
    rcases List.mem_cons.mp hh with rfl | hmem
    · simp [List.find?]
    · have hne : a.half_suit ≠ h.half_suit :=
        fun he => hnd.1 (he ▸ List.mem_map_of_mem HalfSuit.half_suit hmem)
      simp only [List.find?, beq_eq_false_iff_ne.mpr hne]
      exact ih hnd.2 hmem

/-- With a well-keyed table, every entry carrying the looked-up key is the
dict entry. -/
theorem getHalfSuit_unique {g : Game} (hkeys : g.hsKeysOk) {hs : HalfSuits}
    {h : HalfSuit} (hmem : h ∈ g.half_suits) (hkey : h.half_suit = hs) :
    g.getHalfSuit hs = h := by
  have hnd : (g.half_suits.map HalfSuit.half_suit).Nodup := by
    unfold Game.hsKeysOk at hkeys
    rw [hkeys]
    exact HalfSuits_all_nodup
  unfold Game.getHalfSuit
  rw [← hkey]
  rw [find?_hskey_of_mem hnd hmem]
  rfl

theorem filter_claimed_update (l : List HalfSuit) (hs : HalfSuits)
    (hnd : (l.map HalfSuit.half_suit).Nodup)
    (f : HalfSuit → HalfSuit) (hfc : ∀ h, (f h).claimed = true)
    (hentry : ∀ h ∈ l, h.half_suit = hs → h.claimed = false)
    (hmem : ∃ h ∈ l, h.half_suit = hs) :
    ((l.map (fun h => if h.half_suit == hs then f h else h)).filter
        (fun h => h.claimed)).length
      = (l.filter (fun h => h.claimed)).length + 1 := by
  induction l with
  | nil =>
    obtain ⟨h, hh, _⟩ := hmem
    cases hh
  | cons a t ih =>
    simp only [List.map_cons, List.nodup_cons] at hnd
    by_cases hc0 : (a.half_suit == hs) = true
    · have hc : a.half_suit = hs := beq_iff_eq.mp hc0
      have ha : a.claimed = false := hentry a (List.mem_cons_self a t) hc
      have hmapt : t.map (fun h => if h.half_suit == hs then f h else h) = t := by
        have hcongr : ∀ x ∈ t, (fun h => if h.half_suit == hs then f h else h) x = id x := by
          intro x hx
          have hne : x.half_suit ≠ hs := by
            intro he
            exact hnd.1 (hc ▸ he ▸ List.mem_map_of_mem HalfSuit.half_suit hx)
          simp only [id]
          rw [if_neg (by rw [beq_eq_false_iff_ne.mpr hne]; exact Bool.false_ne_true)]
        rw [List.map_congr_left hcongr, List.map_id]
      simp only [List.map_cons, List.filter_cons, hmapt]
      rw [if_pos hc0]
      rw [if_pos (hfc a), if_neg (by rw [ha]; exact Bool.false_ne_true)]
      simp
    · have hastay : (if (a.half_suit == hs) = true then f a else a) = a := if_neg hc0
      have hmem2 : ∃ h ∈ t, h.half_suit = hs := by
        obtain ⟨h, hh, hkey⟩ := hmem
        rcases List.mem_cons.mp hh with rfl | hmem3
        · exact absurd (beq_iff_eq.mpr hkey) hc0
        · exact ⟨h, hmem3, hkey⟩
      have ih2 := ih hnd.2 (fun h hh hk => hentry h (List.mem_cons_of_mem a hh) hk) hmem2
      simp only [List.map_cons, List.filter_cons, hastay]
      cases hpa : a.claimed with
      | false =>
        rw [if_neg Bool.false_ne_true, if_neg Bool.false_ne_true]
        exact ih2
      | true =>
        rw [if_pos rfl, if_pos rfl]
        simp only [List.length_cons]
        omega

theorem filter_claimed_preserve (l : List HalfSuit) (hs : HalfSuits)
    (f : HalfSuit → HalfSuit) (hfc : ∀ h, (f h).claimed = h.claimed) :
    ((l.map (fun h => if h.half_suit == hs then f h else h)).filter
        (fun h => h.claimed)).length
      = (l.filter (fun h => h.claimed)).length := by
  induction l with
  | nil => rfl
  | cons a t ih =>
    simp only [List.map_cons, List.filter_cons]
    by_cases hc0 : (a.half_suit == hs) = true
    · rw [if_pos hc0]
      cases hpa : a.claimed with
      | false =>
        rw [if_neg (by rw [hfc a, hpa]; exact Bool.false_ne_true),
          if_neg Bool.false_ne_true]
        exact ih
      | true =>
        rw [if_pos (by rw [hfc a, hpa]), if_pos rfl]
        simp only [List.length_cons, ih]
    · rw [if_neg hc0]
      cases hpa : a.claimed with
      | false =>
        rw [if_neg Bool.false_ne_true, if_neg Bool.false_ne_true]
        exact ih
      | true =>
        rw [if_pos rfl, if_pos rfl]
        simp only [List.length_cons, ih]

theorem Game.setHalfSuit_keys (g : Game) (hs : HalfSuits) (f : HalfSuit → HalfSuit)
    (hk : ∀ h, (f h).half_suit = h.half_suit) :
    (g.setHalfSuit hs f).half_suits.map HalfSuit.half_suit
      = g.half_suits.map HalfSuit.half_suit := by
  unfold Game.setHalfSuit
  dsimp only
  rw [List.map_map]
  apply List.map_congr_left
  intro a _
  show HalfSuit.half_suit (if (a.half_suit == hs) = true then f a else a) = a.half_suit
  by_cases hc : (a.half_suit == hs) = true
  · rw [if_pos hc]
    exact hk a
  · rw [if_neg hc]

theorem HalfSuits.mem_all (hs : HalfSuits) : hs ∈ HalfSuits.all := by
  cases hs <;> decide

theorem ScoreInv_repick {g g' : Game} {pick : List String → String} (h : g.ScoreInv)
    (heq : g.repick_if_empty pick = .ok g') : g'.ScoreInv := by
  obtain ⟨t, rfl⟩ := Game.repick_result heq
  exact ScoreInv_congr h rfl rfl rfl rfl

theorem ScoreInv_finish {g : Game} {pick : List String → String} {rec : ClaimRecord}
    (h : g.ScoreInv) : ((g.finish_resolution pick rec).2).ScoreInv := by
  unfold Game.finish_resolution
  cases heq : g.repick_if_empty pick with
  | ok g7 => exact ScoreInv_repick h heq
  | error e => exact h

/-- Resolving a previously unclaimed half suit preserves the score/claimed
coupling: one point is scored and one more half suit is marked claimed. -/
theorem ScoreInv_resolve_claim {g : Game} (pick : List String → String)
    (rec : ClaimRecord) (team : TeamId) (pid : String) (hs : HalfSuits) (ok : Bool)
    (st : GameStatus)
    (hkeys : g.hsKeysOk) (hsum : g.scoreSum = g.claimedCount)
    (hun : (g.getHalfSuit hs).claimed = false)
    (hst : st ≠ GameStatus.ACTIVE_COUNTER) :
    ((g.resolve_claim pick rec team pid hs ok st).2).ScoreInv := by
  unfold Game.resolve_claim
  apply ScoreInv_finish
  have hnd : (g.half_suits.map HalfSuit.half_suit).Nodup := by
    unfold Game.hsKeysOk at hkeys
    rw [hkeys]
    exact HalfSuits_all_nodup
  have hentry : ∀ h ∈ g.half_suits, h.half_suit = hs → h.claimed = false := by
    intro h hh hk
    rw [← getHalfSuit_unique hkeys hh hk]
    exact hun
  have hmem : ∃ h ∈ g.half_suits, h.half_suit = hs := by
    have hin : hs ∈ g.half_suits.map HalfSuit.half_suit := by
      unfold Game.hsKeysOk at hkeys
      rw [hkeys]
      exact HalfSuits.mem_all hs
    obtain ⟨h, hh, hk⟩ := List.mem_map.mp hin
    exact ⟨h, hh, hk⟩
  cases ok with
  | true =>
    refine ⟨?_, ?_, ?_⟩
    · show ((((g.setHalfSuit hs _).addScore team).setHalfSuit hs _).half_suits.map
        HalfSuit.half_suit) = HalfSuits.all
      rw [Game.setHalfSuit_keys _ hs (fun h => { h with claimed_success := some true }) (fun h => rfl)]
      rw [Game.addScore_half_suits]
      rw [Game.setHalfSuit_keys _ hs (fun h => { h with claimed := true, claimed_team := some team, claimed_player := some pid }) (fun h => rfl)]
      exact hkeys
    · show (((g.setHalfSuit hs (fun h => { h with claimed := true, claimed_team := some team, claimed_player := some pid })).addScore team).setHalfSuit hs (fun h => { h with claimed_success := some true })).scoreSum =
        ((((g.setHalfSuit hs (fun h => { h with claimed := true, claimed_team := some team, claimed_player := some pid })).addScore team).setHalfSuit hs (fun h => { h with claimed_success := some true })).half_suits.filter
          (fun h => h.claimed)).length
      have hsc : (((g.setHalfSuit hs (fun h => { h with claimed := true, claimed_team := some team, claimed_player := some pid })).addScore team).setHalfSuit hs
          (fun h => { h with claimed_success := some true })).scoreSum
          = g.scoreSum + 1 := by
        show ((g.setHalfSuit hs (fun h => { h with claimed := true, claimed_team := some team, claimed_player := some pid })).addScore team).scoreSum = g.scoreSum + 1
        rw [Game.addScore_scoreSum]
        rfl
      rw [hsc]
      have hhs : (((g.setHalfSuit hs (fun h => { h with claimed := true, claimed_team := some team, claimed_player := some pid })).addScore team).setHalfSuit hs (fun h => { h with claimed_success := some true })).half_suits = (g.half_suits.map (fun h => if h.half_suit == hs then (fun h => { h with claimed := true, claimed_team := some team, claimed_player := some pid }) h else h)).map (fun h => if h.half_suit == hs then (fun h => { h with claimed_success := some true }) h else h) := by
        show (((g.setHalfSuit hs (fun h => { h with claimed := true, claimed_team := some team, claimed_player := some pid })).addScore team).half_suits).map (fun h => if h.half_suit == hs then (fun h => { h with claimed_success := some true }) h else h) = (g.half_suits.map (fun h => if h.half_suit == hs then (fun h => { h with claimed := true, claimed_team := some team, claimed_player := some pid }) h else h)).map (fun h => if h.half_suit == hs then (fun h => { h with claimed_success := some true }) h else h)
        rw [Game.addScore_half_suits]
        rfl
      rw [hhs]
      rw [filter_claimed_preserve _ hs (fun h => { h with claimed_success := some true }) (fun h => rfl)]
      rw [filter_claimed_update _ hs hnd (fun h => { h with claimed := true, claimed_team := some team, claimed_player := some pid }) (fun h => rfl) hentry hmem]
      rw [hsum]
      rfl
    · intro hstat
      exact absurd hstat hst
  | false =>
    refine ⟨?_, ?_, ?_⟩
    · show ((((g.setHalfSuit hs _).addScore team.opp).setHalfSuit hs _).half_suits.map
        HalfSuit.half_suit) = HalfSuits.all
      rw [Game.setHalfSuit_keys _ hs (fun h => { h with claimed_success := some false }) (fun h => rfl)]
      rw [Game.addScore_half_suits]
      rw [Game.setHalfSuit_keys _ hs (fun h => { h with claimed := true, claimed_team := some team, claimed_player := some pid }) (fun h => rfl)]
      exact hkeys
    · show (((g.setHalfSuit hs (fun h => { h with claimed := true, claimed_team := some team, claimed_player := some pid })).addScore team.opp).setHalfSuit hs (fun h => { h with claimed_success := some false })).scoreSum =
        ((((g.setHalfSuit hs (fun h => { h with claimed := true, claimed_team := some team, claimed_player := some pid })).addScore team.opp).setHalfSuit hs (fun h => { h with claimed_success := some false })).half_suits.filter
          (fun h => h.claimed)).length
      have hsc : (((g.setHalfSuit hs (fun h => { h with claimed := true, claimed_team := some team, claimed_player := some pid })).addScore team.opp).setHalfSuit hs
          (fun h => { h with claimed_success := some false })).scoreSum
          = g.scoreSum + 1 := by
        show ((g.setHalfSuit hs (fun h => { h with claimed := true, claimed_team := some team, claimed_player := some pid })).addScore team.opp).scoreSum = g.scoreSum + 1
        rw [Game.addScore_scoreSum]
        rfl
      rw [hsc]
      have hhs : (((g.setHalfSuit hs (fun h => { h with claimed := true, claimed_team := some team, claimed_player := some pid })).addScore team.opp).setHalfSuit hs (fun h => { h with claimed_success := some false })).half_suits = (g.half_suits.map (fun h => if h.half_suit == hs then (fun h => { h with claimed := true, claimed_team := some team, claimed_player := some pid }) h else h)).map (fun h => if h.half_suit == hs then (fun h => { h with claimed_success := some false }) h else h) := by
        show (((g.setHalfSuit hs (fun h => { h with claimed := true, claimed_team := some team, claimed_player := some pid })).addScore team.opp).half_suits).map (fun h => if h.half_suit == hs then (fun h => { h with claimed_success := some false }) h else h) = (g.half_suits.map (fun h => if h.half_suit == hs then (fun h => { h with claimed := true, claimed_team := some team, claimed_player := some pid }) h else h)).map (fun h => if h.half_suit == hs then (fun h => { h with claimed_success := some false }) h else h)
        rw [Game.addScore_half_suits]
        rfl
      rw [hhs]
      rw [filter_claimed_preserve _ hs (fun h => { h with claimed_success := some false }) (fun h => rfl)]
      rw [filter_claimed_update _ hs hnd (fun h => { h with claimed := true, claimed_team := some team, claimed_player := some pid }) (fun h => rfl) hentry hmem]
      rw [hsum]
      rfl
    · intro hstat
      exact absurd hstat hst

theorem getLast?_append_singleton {α : Type} (l : List α) (a : α) :
    (l ++ [a]).getLast? = some a := by
  induction l with
  | nil => rfl
  | cons x xs ih =>
    cases xs with
    | nil => rfl
    | cons y ys => simpa using ih

theorem ScoreInv_init (settings : GameSettings) : (Game.init settings).ScoreInv := by
  refine ⟨?_, ?_, ?_⟩
  · show create_half_suits.map HalfSuit.half_suit = HalfSuits.all
    decide
  · show 0 + 0 = (create_half_suits.filter (fun h => h.claimed)).length
    decide
  · intro hstat
    exact nomatch hstat

/-- Team-list edits that keep the score intact keep the invariant. -/
theorem ScoreInv_modifyTeam {g : Game} (t : TeamId) (f : Team → Team)
    (hf : ∀ tm, (f tm).score = tm.score) (h : g.ScoreInv) :
    (g.modifyTeam t f).ScoreInv :=
  ScoreInv_congr h (Game.modifyTeam_status g t f) (Game.modifyTeam_claims g t f)
    (Game.modifyTeam_half_suits g t f) (Game.modifyTeam_scoreSum g t f hf)

theorem ScoreInv_join {g : Game} (h : g.ScoreInv) (now : Nat) (id name : String) :
    ((g.join_player now id name).2).ScoreInv := by
  unfold Game.join_player
  split
  · exact h
  split
  · exact h
  split
  · exact h
  split
  · exact h
  split
  · exact h
  · dsimp only
    apply ScoreInv_modifyTeam
    · exact fun tm => rfl
    · exact ScoreInv_congr h rfl rfl rfl rfl

theorem ScoreInv_leave {g : Game} (h : g.ScoreInv) (now : Nat) (id : String) :
    ((g.leave_player now id).2).ScoreInv := by
  unfold Game.leave_player
  split
  · split
    · exact h
    · dsimp only
      split
      · exact h
      · rename_i p hp x2 idx hidx
        have h1 : ({ g with last_updated := now } : Game).ScoreInv :=
          ScoreInv_congr h rfl rfl rfl rfl
        have h2 := @ScoreInv_modifyTeam { g with last_updated := now } p.team
          (fun tm => { tm with players := tm.players.eraseIdx idx }) (fun tm => rfl) h1
        exact ScoreInv_congr h2 rfl rfl rfl rfl
  · exact ScoreInv_congr_noCounter h (fun hc => nomatch hc) rfl rfl

theorem ScoreInv_swap {g : Game} (h : g.ScoreInv) (now : Nat) (id : String) :
    ((g.team_swap_player now id).2).ScoreInv := by
  unfold Game.team_swap_player
  split
  · exact h
  · split
    · exact h
    · dsimp only
      split
      · exact h
      · rename_i p hp x2 idx hidx
        have h1 : ({ g with last_updated := now } : Game).ScoreInv :=
          ScoreInv_congr h rfl rfl rfl rfl
        have h2 := @ScoreInv_modifyTeam { g with last_updated := now } p.team
          (fun tm => { tm with players := tm.players.eraseIdx idx }) (fun tm => rfl) h1
        have h3 := @ScoreInv_modifyTeam _ p.team.opp
          (fun tm => { tm with players := tm.players ++ [id] }) (fun tm => rfl) h2
        exact ScoreInv_congr h3 rfl rfl rfl rfl

theorem ScoreInv_start {g : Game} (h : g.ScoreInv) (now : Nat)
    (shuf : List Card → List Card) (pick : List String → String) :
    ((g.start_game now shuf pick).2).ScoreInv := by
  unfold Game.start_game
  split
  · exact h
  split
  · exact h
  · dsimp only
    exact ScoreInv_congr_noCounter h (fun hc => nomatch hc) rfl rfl

theorem ScoreInv_ask {g : Game} (h : g.ScoreInv) (now : Nat) (a r : String) (c : Card) :
    ((g.ask now a r c).2).ScoreInv := by
  unfold Game.ask
  split
  · exact h
  split
  · exact h
  split
  · exact h
  split
  · exact h
  split
  · exact h
  split
  · exact h
  split
  · exact h
  split
  · exact h
  · dsimp only
    split
    · exact ScoreInv_congr h rfl rfl rfl rfl
    · exact ScoreInv_congr h rfl rfl rfl rfl

theorem ScoreInv_claim {g : Game} (h : g.ScoreInv) (now : Nat)
    (pick : List String → String) (cid : String) (hs : HalfSuits)
    (asg : List (String × String)) :
    ((g.claim now pick cid hs asg).2).ScoreInv := by
  unfold Game.claim
  split
  · exact h
  · split
    · exact h
    split
    · exact h
    split
    · exact h
    · dsimp only
      rename_i claimant hp hst0 hcl0 hva0
      apply ScoreInv_resolve_claim
      · exact h.1
      · exact h.2.1
      · show (g.getHalfSuit hs).claimed = false
        simpa using hcl0
      · show g.status ≠ GameStatus.ACTIVE_COUNTER
        rw [not_ne_iff.mp hst0]
        decide

theorem ScoreInv_claim_opp {g : Game} (h : g.ScoreInv) (now : Nat) (cid : String)
    (suit : HalfSuits) :
    ((g.claim_opp now cid suit).2).ScoreInv := by
  unfold Game.claim_opp
  split
  · exact h
  · split
    · exact h
    split
    · exact h
    · dsimp only
      rename_i claimant hp hst0 hcl0
      refine ⟨h.1, h.2.1, ?_⟩
      intro hstat c hlast hscen
      dsimp only at hlast
      rw [getLast?_append_singleton] at hlast
      injection hlast with hc
      rw [← hc]
      show (g.getHalfSuit suit).claimed = false
      simpa using hcl0

theorem ScoreInv_claim_opp_unopposed {g : Game} (h : g.ScoreInv) (now : Nat)
    (pick : List String → String) (asg : List (String × String)) :
    ((g.claim_opp_unopposed now pick asg).2).ScoreInv := by
  unfold Game.claim_opp_unopposed
  split
  · exact h
  · split
    · exact h
    split
    · exact h
    split
    · exact h
    · dsimp only
      split
      · exact h
      · rename_i claim hlast hguard hlen hteam hva
        have hg := not_or.mp hguard
        have hst : g.status = GameStatus.ACTIVE_COUNTER := not_ne_iff.mp hg.1
        have hsc : claim.scenario = ClaimScenario.CLAIM_OPP_TEAM_AWAITING :=
          not_ne_iff.mp hg.2
        apply ScoreInv_resolve_claim
        · exact h.1
        · exact h.2.1
        · show (g.getHalfSuit claim.half_suit).claimed = false
          exact h.2.2 hst claim hlast hsc
        · decide

theorem ScoreInv_claim_counter {g : Game} (h : g.ScoreInv) (now : Nat)
    (pick : List String → String) (cid : String) (asg : List (String × String)) :
    ((g.claim_counter now pick cid asg).2).ScoreInv := by
  unfold Game.claim_counter
  split
  · exact h
  · split
    · exact h
    · split
      · exact h
      split
      · exact h
      · dsimp only
        split
        · exact ScoreInv_congr h rfl rfl rfl rfl
        split
        · exact ScoreInv_congr h rfl rfl rfl rfl
        · rename_i claimant hp prev hlast hguard hpass hteam hva
          have hg := not_or.mp hguard
          have hst : g.status = GameStatus.ACTIVE_COUNTER := not_ne_iff.mp hg.1
          have hsc : prev.scenario = ClaimScenario.CLAIM_OPP_TEAM_AWAITING :=
            not_ne_iff.mp hg.2
          apply ScoreInv_resolve_claim
          · exact h.1
          · exact h.2.1
          · show (g.getHalfSuit prev.half_suit).claimed = false
            exact h.2.2 hst prev hlast hsc
          · decide

theorem ScoreInv_claim_counter_pass {g : Game} (h : g.ScoreInv) (now : Nat)
    (pid : String) :
    ((g.claim_counter_pass now pid).2).ScoreInv := by
  unfold Game.claim_counter_pass
  split
  · exact h
  · split
    · exact h
    · split
      · exact h
      split
      · exact h
      · dsimp only
        exact ScoreInv_congr h rfl rfl rfl rfl

/-- Every engine operation preserves the score/claimed coupling. -/
theorem ScoreInv_step {g g' : Game} (h : g.ScoreInv) (hstep : g.Step g') :
    g'.ScoreInv := by
  cases hstep with
  | join now id name => exact ScoreInv_join h now id name
  | leave now id => exact ScoreInv_leave h now id
  | swap now id => exact ScoreInv_swap h now id
  | start now shuf pick hs hp => exact ScoreInv_start h now shuf pick
  | ask now a r c => exact ScoreInv_ask h now a r c
  | claim now pick cid hsuit asg hp => exact ScoreInv_claim h now pick cid hsuit asg
  | claim_opp now cid suit => exact ScoreInv_claim_opp h now cid suit
  | claim_opp_unopposed now pick asg hp => exact ScoreInv_claim_opp_unopposed h now pick asg
  | claim_counter now pick cid asg hp => exact ScoreInv_claim_counter h now pick cid asg
  | claim_counter_pass now pid => exact ScoreInv_claim_counter_pass h now pid

/-- The coupling holds in every reachable state. -/
theorem ScoreInv_reachable {settings : GameSettings} {g : Game}
    (h : Game.Reachable settings g) : g.ScoreInv := by
  induction h with
  | init => exact ScoreInv_init settings
  | step hr hstep ih => exact ScoreInv_step ih hstep

/-! ## C6: the score/claimed coupling, and the missing FINISHED transition -/

/-- One regular claim of `hs` by "a", assigning every card to "a". -/
def exClaim (gg : Game) (hs : HalfSuits) : Game :=
  (gg.claim 10 exPick "a" hs (exAsgTo hs "a")).2

/-- `exStart` after all nine half suits have been claimed (in the order
lows, highs, special). -/
def exDone : Game :=
  exClaim (exClaim (exClaim (exClaim (exClaim (exClaim (exClaim (exClaim (exClaim
    exStart .SPADES_LOW) .HEARTS_LOW) .DIAMONDS_LOW) .CLUBS_LOW) .SPADES_HIGH)
    .HEARTS_HIGH) .DIAMONDS_HIGH) .CLUBS_HIGH) .SPECIAL

theorem exDone_reachable : Game.Reachable exSettings exDone := by
  have h0 := exStart_reachable
  have h1 := Game.Reachable.step h0 (Game.Step.claim _ 10 exPick "a" .SPADES_LOW (exAsgTo .SPADES_LOW "a") goodPick_exPick)
  have h2 := Game.Reachable.step h1 (Game.Step.claim _ 10 exPick "a" .HEARTS_LOW (exAsgTo .HEARTS_LOW "a") goodPick_exPick)
  have h3 := Game.Reachable.step h2 (Game.Step.claim _ 10 exPick "a" .DIAMONDS_LOW (exAsgTo .DIAMONDS_LOW "a") goodPick_exPick)
  have h4 := Game.Reachable.step h3 (Game.Step.claim _ 10 exPick "a" .CLUBS_LOW (exAsgTo .CLUBS_LOW "a") goodPick_exPick)
  have h5 := Game.Reachable.step h4 (Game.Step.claim _ 10 exPick "a" .SPADES_HIGH (exAsgTo .SPADES_HIGH "a") goodPick_exPick)
  have h6 := Game.Reachable.step h5 (Game.Step.claim _ 10 exPick "a" .HEARTS_HIGH (exAsgTo .HEARTS_HIGH "a") goodPick_exPick)
  have h7 := Game.Reachable.step h6 (Game.Step.claim _ 10 exPick "a" .DIAMONDS_HIGH (exAsgTo .DIAMONDS_HIGH "a") goodPick_exPick)
  have h8 := Game.Reachable.step h7 (Game.Step.claim _ 10 exPick "a" .CLUBS_HIGH (exAsgTo .CLUBS_HIGH "a") goodPick_exPick)
  have h9 := Game.Reachable.step h8 (Game.Step.claim _ 10 exPick "a" .SPECIAL (exAsgTo .SPECIAL "a") goodPick_exPick)
  exact h9

set_option maxRecDepth 100000 in
/-- C6 counterexample: after the ninth half suit resolves in the reachable
state `exDone`, both scores sum to 9 and every half suit is claimed — the
engine even computes `done = true` — yet the status is still ActiveAsk, not
Finished: no operation ever sets FINISHED on resolution. -/
theorem C6_counterexample :
    Game.Reachable exSettings exDone ∧ exDone.claimedCount = 9 ∧
      exDone.scoreSum = 9 ∧ exDone.doneFlag = true ∧
      exDone.status = GameStatus.ACTIVE_ASK ∧
      exDone.status ≠ GameStatus.FINISHED :=
  ⟨exDone_reachable, by decide, by decide, by decide, by decide, by decide⟩

/-- C6 (amended): in every reachable state the two team scores sum to the
number of half suits marked claimed, and that sum never exceeds 9; the
stronger spec sentence fails because the status never becomes FINISHED when
the ninth half suit resolves (see the counterexample). -/
theorem C6_score_coupling {settings : GameSettings} {g : Game}
    (h : Game.Reachable settings g) :
    g.scoreSum = g.claimedCount ∧ g.scoreSum ≤ 9 := by
  obtain ⟨h1, h2, _⟩ := ScoreInv_reachable h
  have h1e : g.half_suits.map HalfSuit.half_suit = HalfSuits.all := h1
  refine ⟨h2, ?_⟩
  rw [h2]
  unfold Game.claimedCount
  calc (g.half_suits.filter (fun h => h.claimed)).length
      ≤ g.half_suits.length := List.length_filter_le _ _
    _ = (g.half_suits.map HalfSuit.half_suit).length := (List.length_map _ _).symm
    _ = HalfSuits.all.length := by rw [h1e]
    _ = 9 := rfl

set_option maxRecDepth 100000 in
theorem C6_score_coupling_witness :
    exStart.scoreSum = exStart.claimedCount ∧ exStart.scoreSum ≤ 9 :=
  C6_score_coupling exStart_reachable

/-! ## C5: the counter-claim operation -/

theorem map_ite_comp {α : Type} (l : List α) (key : α → Bool) (f1 f2 : α → α)
    (hk : ∀ a, key (f1 a) = key a) :
    (l.map (fun a => if key a then f1 a else a)).map
        (fun a => if key a then f2 a else a)
      = l.map (fun a => if key a then f2 (f1 a) else a) := by
  rw [List.map_map]
  apply List.map_congr_left
  intro a _
  show (fun a => if key a then f2 a else a) (if key a then f1 a else a)
      = if key a then f2 (f1 a) else a
  cases hc : key a
  · simp [hk, hc]
  · simp [hk, hc]


/-- Marking a half suit claimed and then recording the success flag equals a
single combined update. -/
theorem half_suits_resolve_eq (l : List HalfSuit) (hs : HalfSuits) (team : TeamId)
    (pid : String) (b : Bool) :
    (l.map (fun h => if h.half_suit == hs then { h with claimed := true, claimed_team := some team, claimed_player := some pid } else h)).map
      (fun h => if h.half_suit == hs then { h with claimed_success := some b } else h)
    = l.map (fun h => if h.half_suit == hs then { h with claimed := true, claimed_team := some team, claimed_player := some pid, claimed_success := some b } else h) := by
  rw [map_ite_comp l (fun h => h.half_suit == hs)
    (fun h => { h with claimed := true, claimed_team := some team, claimed_player := some pid })
    (fun h => { h with claimed_success := some b }) (fun a => rfl)]

/-- C5: `claim_counter` succeeds only in ActiveCounter on an AWAITING claim,
for an existing counter-claimant on the team opposing the original claim who
has not already passed; under those conditions (with a valid assignment and
the unclaimed awaited suit) it resolves the half suit: the counter-claiming
team scores when the assignment matches the true holders and the original
claimant's team (= the counter-claimant's opposing team) scores otherwise,
the half suit is marked claimed, its cards leave every hand, and the status
returns to ActiveAsk. -/
theorem C5_counter_claim (g : Game) (now : Nat) (pick : List String → String)
    (claimant_id : String) (asg : List (String × String))
    (claimant : Player) (prev : ClaimRecord)
    (Hcl : g.getPlayer claimant_id = some claimant)
    (Hlast : g.claims.getLast? = some prev)
    (Hst : g.status = GameStatus.ACTIVE_COUNTER)
    (Hsc : prev.scenario = ClaimScenario.CLAIM_OPP_TEAM_AWAITING)
    (Hpass : (g.counter_claim_passed.map (fun l => l.contains claimant_id)).getD false = false)
    (Hteam : claimant.team ≠ prev.team)
    (Hva : g.valid_assignment asg prev.half_suit = true)
    (Hset : g.settings.hand_complete_turn_transfer = GameHandCompleteTurnTransfer.RANDOM)
    (Hturn : ∀ pt, g.player_turn = some pt → (g.getPlayer pt).isSome = true) :
    (∀ (g0 : Game) (n0 : Nat) (p0 : List String → String) (c0 : String)
        (a0 : List (String × String)) res g2,
        g0.claim_counter n0 p0 c0 a0 = (.ok res, g2) →
        g0.status = GameStatus.ACTIVE_COUNTER ∧
        ∃ prev0, g0.claims.getLast? = some prev0 ∧
          prev0.scenario = ClaimScenario.CLAIM_OPP_TEAM_AWAITING ∧
          (∃ cl0, g0.getPlayer c0 = some cl0 ∧ cl0.team ≠ prev0.team) ∧
          (g0.counter_claim_passed.map (fun l => l.contains c0)).getD false = false) ∧
    claimant.team.opp = prev.team ∧
    ∃ g' turn,
      g.claim_counter now pick claimant_id asg =
        (.ok ({ turn_cnt := g.turn_cnt, team := claimant.team, claimant := claimant_id,
                half_suit := prev.half_suit, is_for_other := false, is_counter := true,
                countered := none, success := g.check_assignment asg,
                scenario := ClaimScenario.CLAIM_COUNTER }, turn, g'.doneFlag), g') ∧
      g'.status = GameStatus.ACTIVE_ASK ∧
      g'.counter_claim_passed = none ∧
      g'.players = g.players.map
        (fun p => { p with hand := p.hand.filter (fun c => c.half_suit != prev.half_suit) }) ∧
      g'.half_suits = g.half_suits.map
        (fun h => if h.half_suit == prev.half_suit then
          { h with claimed := true, claimed_team := some claimant.team,
                   claimed_player := some claimant_id,
                   claimed_success := some (g.check_assignment asg) } else h) ∧
      (g.check_assignment asg = true →
        (g'.getTeam claimant.team).score = (g.getTeam claimant.team).score + 1 ∧
        (g'.getTeam prev.team).score = (g.getTeam prev.team).score) ∧
      (g.check_assignment asg = false →
        (g'.getTeam prev.team).score = (g.getTeam prev.team).score + 1 ∧
        (g'.getTeam claimant.team).score = (g.getTeam claimant.team).score) := by
  have hopp : claimant.team.opp = prev.team := TeamId.opp_of_ne _ _ Hteam
  refine ⟨?_, hopp, ?_⟩
  · intro g0 n0 p0 c0 a0 res g2 hok
    unfold Game.claim_counter at hok
    split at hok
    · exact nomatch congrArg Prod.fst hok
    · split at hok
      · exact nomatch congrArg Prod.fst hok
      · split at hok
        · exact nomatch congrArg Prod.fst hok
        split at hok
        · exact nomatch congrArg Prod.fst hok
        · dsimp only at hok
          split at hok
          · exact nomatch congrArg Prod.fst hok
          split at hok
          · exact nomatch congrArg Prod.fst hok
          · rename_i x1 cl0 hcl0 x2 prev0 hlast0 hguard0 hpass0 hteam0 hva0
            have hg := not_or.mp hguard0
            refine ⟨not_ne_iff.mp hg.1, prev0, hlast0, not_ne_iff.mp hg.2,
              ⟨cl0, hcl0, hteam0⟩, ?_⟩
            simpa using hpass0
  · unfold Game.claim_counter
    rw [Hcl]
    dsimp only
    rw [Hlast]
    dsimp only
    rw [if_neg (by rw [Hst, Hsc]; simp)]
    rw [if_neg (by rw [Hpass]; simp)]
    have hva1 : ({ g with last_updated := now } : Game).valid_assignment asg prev.half_suit
        = g.valid_assignment asg prev.half_suit := rfl
    rw [if_neg Hteam, hva1, if_neg (not_not_intro Hva)]
    have hck : ∀ cl : List ClaimRecord,
        ({ g with last_updated := now, claims := cl } : Game).check_assignment asg
        = g.check_assignment asg := fun cl => rfl
    rw [hck]
    unfold Game.resolve_claim Game.finish_resolution
    dsimp only
    cases hchk : g.check_assignment asg <;> cases hT : claimant.team <;>
      (split
       case _ g7 heq =>
         obtain ⟨t, rfl⟩ := Game.repick_result heq
         refine ⟨_, _, rfl, rfl, rfl, rfl, ?_, ?_, ?_⟩
         · exact half_suits_resolve_eq g.half_suits prev.half_suit _ claimant_id _
         · intro hx
           first
             | exact absurd hx (by decide)
             | (rw [← hopp, hT]; exact ⟨rfl, rfl⟩)
         · intro hx
           first
             | exact absurd hx (by decide)
             | (rw [← hopp, hT]; exact ⟨rfl, rfl⟩)
       case _ e heq =>
         exfalso
         refine Game.repick_no_error ?_ ?_ heq
         · exact Hset
         · intro pt hpt
           have h0 : (g.players.find? (fun p => p.id == pt)).isSome = true := Hturn pt hpt
           have key : ((g.players.map (fun p : Player =>
               { p with hand := p.hand.filter (fun c => c.half_suit != prev.half_suit) })).find?
                 (fun p => p.id == pt)).isSome = true := by
             rw [find?_map_comm _ _ (fun p => p.id == pt) _ (fun a => rfl)]
             cases hf : g.players.find? (fun p => p.id == pt) with
             | none => rw [hf] at h0; cases h0
             | some p => rfl
           exact key)

/-! ## Concrete counter-claim scenario: "a" claims HEARTS_HIGH for team 2 -/

/-- `exStart` after "a" opens the counter-claim window on HEARTS_HIGH. -/
def exCo : Game := (exStart.claim_opp 5 "a" .HEARTS_HIGH).2

/-- Player "b" as stored in `exCo`. -/
def exCoB : Player :=
  (exCo.getPlayer "b").getD { id := "", name := "", team := .TEAM_1, hand := [] }

/-- The AWAITING claim record at the top of `exCo`'s claim log. -/
def exCoPrev : ClaimRecord :=
  (exCo.claims.getLast?).getD { turn_cnt := 0, team := .TEAM_1, claimant := "", half_suit := .SPECIAL, is_for_other := false, is_counter := false, success := false, scenario := .CLAIM_WITHIN_TEAM }

set_option maxRecDepth 100000 in
theorem C5_counter_claim_witness :
    ((exCo.claim_counter 8 exPick "b" (exAsgTo .HEARTS_HIGH "b")).2).status
      = GameStatus.ACTIVE_ASK := by
  obtain ⟨-, -, g', turn, heq, hst, -⟩ := C5_counter_claim exCo 8 exPick "b"
    (exAsgTo .HEARTS_HIGH "b") exCoB exCoPrev (by decide) (by decide) (by decide)
    (by decide) (by decide) (by decide) (by decide) (by decide)
    (by
      intro pt hpt
      rw [show exCo.player_turn = some "a" from by decide] at hpt
      injection hpt with hpt1
      rw [← hpt1]
      decide)
  rw [heq]
  exact hst

/-! ## C7: a rejected counter-claim still overwrites the timestamp -/

set_option maxRecDepth 100000 in
/-- C7 counterexample to "a rejected operation leaves state unchanged":
`claim_counter` assigns `last_updated` before the teammate check, so the
rejected counter-claim by the original claimant "a" returns an error yet
leaves the timestamp overwritten (5 → 8). -/
theorem C7_rejection_timestamp :
    exCo.last_updated = 5 ∧
    (exCo.claim_counter 8 exPick "a" []).1
      = .error "Cannot counter claim for claim by teammate" ∧
    (exCo.claim_counter 8 exPick "a" []).2.last_updated = 8 ∧
    (exCo.claim_counter 8 exPick "a" []).2 ≠ exCo := by
  refine ⟨by decide, by rfl, by decide, ?_⟩
  intro heq
  have h8 : (exCo.claim_counter 8 exPick "a" []).2.last_updated = 8 := by decide
  rw [heq] at h8
  exact absurd ((show exCo.last_updated = 5 from by decide) ▸ h8) (by decide)

/-! ## C8: turn reassignment when the holder's hand empties -/

set_option maxRecDepth 100000 in
/-- C8 counterexample: in the reachable fully-resolved state `exDone` the
turn holder "a" has an empty hand and no player of team 1 holds any card,
yet `player_turn` is still `some "a"` — `_pick_playable_player` returns
without clearing it, so the turn holder is never unset. -/
theorem C8_counterexample :
    Game.Reachable exSettings exDone ∧
    exDone.player_turn = some "a" ∧
    (∀ p ∈ exDone.players, p.hand = []) ∧
    exDone.player_turn ≠ none :=
  ⟨exDone_reachable, by decide, by decide, by decide⟩

/-- C8 (amended): when the current turn holder's hand is empty after a
resolution, `repick_if_empty` picks the new holder among the same-team
players who still hold cards; when no such player exists it returns the
state unchanged — the turn holder keeps pointing at the empty-handed
player instead of being cleared. -/
theorem C8_turn_reassignment (g : Game) (pick : List String → String)
    (pt : String) (p : Player)
    (Hpt : g.player_turn = some pt)
    (Hp : g.getPlayer pt = some p)
    (Hset : g.settings.hand_complete_turn_transfer = GameHandCompleteTurnTransfer.RANDOM)
    (Hempty : p.hand.length = 0) :
    (((g.getTeam p.team).players.filter
        (fun q => ((g.getPlayer q).map (fun pl => pl.hand.length)).getD 0 > 0)) ≠ [] →
      g.repick_if_empty pick = .ok { g with player_turn := some (pick
        ((g.getTeam p.team).players.filter
          (fun q => ((g.getPlayer q).map (fun pl => pl.hand.length)).getD 0 > 0))) }) ∧
    (((g.getTeam p.team).players.filter
        (fun q => ((g.getPlayer q).map (fun pl => pl.hand.length)).getD 0 > 0)) = [] →
      g.repick_if_empty pick = .ok g ∧ g.player_turn = some pt) := by
  unfold Game.repick_if_empty Game.pick_playable_player
  rw [Hpt]
  dsimp only
  rw [Hp]
  dsimp only
  rw [if_pos Hempty, Hset]
  dsimp only
  constructor
  · intro hne
    rw [if_neg (by simpa using List.length_eq_zero.not.mpr hne)]
  · intro hnil
    rw [if_pos (by rw [hnil]; rfl)]
    exact ⟨rfl, rfl⟩

/-- A one-player-per-team state whose turn holder has no cards and no
teammate holds cards. -/
def exW : Game :=
  { Game.init exSettings with players := [{ id := "a", name := "a", team := .TEAM_1, hand := [] }], team1 := { id := .TEAM_1, name := "Team 1", score := 0, players := ["a"] }, player_turn := some "a" }

theorem C8_turn_reassignment_witness : exW.repick_if_empty exPick = .ok exW ∧ exW.player_turn = some "a" :=
  (C8_turn_reassignment exW exPick "a" { id := "a", name := "a", team := .TEAM_1, hand := [] }
    (by decide) (by decide) (by decide) (by decide)).2 (by decide)

/-! ## C9: passing on the counter claim -/

/-- `exCo` after "b" has passed once. -/
def exPass1 : Game := (exCo.claim_counter_pass 6 "b").2

set_option maxRecDepth 100000 in
/-- C9 counterexample to "only by a member who has not already passed": a
second pass by "b", who is already on the pass list, is not rejected — it
succeeds again (returning true) and leaves the pass list as it was. -/
theorem C9_counterexample :
    (exCo.claim_counter_pass 6 "b").1 = .ok true ∧
    exPass1.counter_claim_passed = some ["b"] ∧
    exPass1.status = GameStatus.ACTIVE_COUNTER ∧
    (exPass1.claim_counter_pass 7 "b").1 = .ok true ∧
    (exPass1.claim_counter_pass 7 "b").2.counter_claim_passed = some ["b"] :=
  ⟨by rfl, by decide, by decide, by rfl, by decide⟩

/-- C9 (amended): `claim_counter_pass` succeeds in ActiveCounter on an
AWAITING claim for any member of the team opposing that claim — including
one who has already passed, for whom it is an accepted no-op on the pass
list.  It returns true exactly when the pass list is as long as the
opposing team's roster, and it changes nothing but the timestamp and the
pass list (scores, hands, half suits and the status are untouched). -/
theorem C9_counter_pass (g : Game) (now : Nat) (passer_id : String)
    (passer : Player) (claim : ClaimRecord)
    (Hp : g.getPlayer passer_id = some passer)
    (Hlast : g.claims.getLast? = some claim)
    (Hst : g.status = GameStatus.ACTIVE_COUNTER)
    (Hsc : claim.scenario = ClaimScenario.CLAIM_OPP_TEAM_AWAITING)
    (Hteam : passer.team ≠ claim.team) :
    ∃ passed1,
      g.claim_counter_pass now passer_id =
        (.ok (passed1.length == (g.getTeam claim.team.opp).players.length),
         { g with last_updated := now, counter_claim_passed := some passed1 }) ∧
      passed1 = (if passer_id ∈ g.counter_claim_passed.getD [] then
          g.counter_claim_passed.getD [] else g.counter_claim_passed.getD [] ++ [passer_id]) ∧
      (passer_id ∈ g.counter_claim_passed.getD [] →
          passed1 = g.counter_claim_passed.getD []) ∧
      passer_id ∈ passed1 := by
  unfold Game.claim_counter_pass
  rw [Hp]
  dsimp only
  rw [Hlast]
  dsimp only
  rw [if_neg (by rw [Hst, Hsc]; simp)]
  rw [if_neg Hteam]
  refine ⟨_, rfl, rfl, ?_, ?_⟩
  · intro hmem
    rw [if_pos hmem]
  · by_cases hmem : passer_id ∈ g.counter_claim_passed.getD []
    · rw [if_pos hmem]
      exact hmem
    · rw [if_neg hmem]
      exact List.mem_append_right _ (List.mem_singleton.mpr rfl)

set_option maxRecDepth 100000 in
theorem C9_counter_pass_witness :
    ∃ passed1,
      exCo.claim_counter_pass 6 "b" =
        (.ok (passed1.length == (exCo.getTeam exCoPrev.team.opp).players.length),
         { exCo with last_updated := 6, counter_claim_passed := some passed1 }) ∧
      passed1 = (if "b" ∈ exCo.counter_claim_passed.getD [] then
          exCo.counter_claim_passed.getD [] else exCo.counter_claim_passed.getD [] ++ ["b"]) ∧
      ("b" ∈ exCo.counter_claim_passed.getD [] →
          passed1 = exCo.counter_claim_passed.getD []) ∧
      "b" ∈ passed1 :=
  C9_counter_pass exCo 6 "b" exCoB exCoPrev (by decide) (by decide) (by decide)
    (by decide) (by decide)

/-! ## Witness scenarios for the abstract claim theorems -/

/-- Player "a" as stored in `exStart`. -/
def exA : Player :=
  (exStart.getPlayer "a").getD { id := "", name := "", team := .TEAM_1, hand := [] }

/-- Player "b" as stored in `exStart`. -/
def exB : Player :=
  (exStart.getPlayer "b").getD { id := "", name := "", team := .TEAM_1, hand := [] }

set_option maxRecDepth 100000 in
theorem exStart_turn : ∀ pt, exStart.player_turn = some pt →
    (exStart.getPlayer pt).isSome = true := by
  intro pt hpt
  rw [show exStart.player_turn = some "a" from by decide] at hpt
  injection hpt with h
  rw [← h]
  decide

/-- Pairwise disjoint hands (a decidable condition on concrete states) give
the unique-holder property. -/
theorem UniqueHolders_of_disjoint {g : Game}
    (h : ∀ p1 ∈ g.players, ∀ p2 ∈ g.players, p1 ≠ p2 →
      ∀ c1 ∈ p1.hand, ∀ c2 ∈ p2.hand, c1.id ≠ c2.id) : g.UniqueHolders := by
  intro p1 hp1 p2 hp2 cid h1 h2
  by_contra hne
  obtain ⟨c1, hc1, hc1id⟩ := List.any_eq_true.mp h1
  obtain ⟨c2, hc2, hc2id⟩ := List.any_eq_true.mp h2
  rw [beq_iff_eq] at hc1id hc2id
  exact h p1 hp1 p2 hp2 hne c1 hc1 c2 hc2 (by rw [hc1id, hc2id])

theorem exAsgTo_snd (hs : HalfSuits) (pid : String) :
    ∀ kv ∈ exAsgTo hs pid, kv.2 = pid := by
  intro kv hkv
  unfold exAsgTo at hkv
  obtain ⟨cid, hcid, heq⟩ := List.mem_map.mp hkv
  rw [← heq]

set_option maxRecDepth 100000 in
theorem C1_claim_correctness_witness :
    ∃ rec turn done g',
      exStart.claim 4 exPick "a" .SPADES_LOW (exAsgTo .SPADES_LOW "a")
        = (.ok (rec, turn, done), g') ∧
      rec.success = true ∧
      (g'.getTeam TeamId.TEAM_1).score = (exStart.getTeam TeamId.TEAM_1).score + 1 ∧
      (g'.getTeam TeamId.TEAM_1.opp).score = (exStart.getTeam TeamId.TEAM_1.opp).score :=
  (C1_claim_correctness exStart 4 exPick "a" .SPADES_LOW TeamId.TEAM_1 exA
    (List.Perm.refl _) (by unfold Game.NodupIds; decide)
    (UniqueHolders_of_disjoint (by decide)) (by decide)
    exStart_turn (by decide) (by decide) (by decide) (by decide) (by decide)).1
    (exAsgTo .SPADES_LOW "a") (by decide) (by decide)

set_option maxRecDepth 100000 in
theorem C2_claim_opp_awaiting_witness :
    ∃ rec g', exStart.claim_opp 5 "a" .HEARTS_HIGH = (.ok rec, g') ∧
      rec.scenario = ClaimScenario.CLAIM_OPP_TEAM_AWAITING ∧
      rec.is_for_other = true ∧
      rec.half_suit = .HEARTS_HIGH ∧
      g'.status = GameStatus.ACTIVE_COUNTER ∧
      g'.claims = exStart.claims ++ [rec] ∧
      g'.counter_claim_passed = some [] ∧
      g'.players = exStart.players ∧
      g'.team1 = exStart.team1 ∧ g'.team2 = exStart.team2 ∧
      g'.half_suits = exStart.half_suits :=
  C2_claim_opp_awaiting exStart 5 "a" .HEARTS_HIGH exA (by decide) (by decide) (by decide)

set_option maxRecDepth 100000 in
theorem C3_ask_witness :
    ∃ g' rec, exStart.ask 4 "a" "b" { rank := .EIGHT, suit := .CLUBS } = (.ok rec, g') ∧
      rec = { turn_cnt := exStart.turn_cnt + 1, asker := "a", respondant := "b", card := { rank := .EIGHT, suit := .CLUBS }, success := true } ∧
      g'.player_turn = exStart.player_turn ∧
      g'.getPlayer "a" = some { exA with hand := exA.hand ++ [{ rank := .EIGHT, suit := .CLUBS }] } ∧
      g'.getPlayer "b" = some { exB with hand := exB.hand.filter (fun c => c.id != ({ rank := .EIGHT, suit := .CLUBS } : Card).id) } ∧
      (∀ q ∈ exStart.players, q.id ≠ "a" → q.id ≠ "b" → q ∈ g'.players) ∧
      g'.asks = exStart.asks ++ [rec] :=
  (C3_ask exStart 4 "a" "b" { rank := .EIGHT, suit := .CLUBS } exA exB (by decide)
    (by decide) (by decide) (by decide) (by decide) (by decide) (by decide)
    (by decide)).1 (by decide) (by decide)

/-- Claimant and half-suit cards for the validator's split branch. -/
def vPlayersEx : List VPlayer :=
  [{ id := "a", name := "a", team_id := 1, hand := ["2-S"] }, { id := "b", name := "b", team_id := 2, hand := ["3-S"] }]

def vAEx : VPlayer := { id := "a", name := "a", team_id := 1, hand := ["2-S"] }

def hsCardsEx : List String := ["2-S", "3-S", "4-S", "5-S", "6-S", "7-S"]

set_option maxRecDepth 100000 in
theorem C4_split_auto_fail_witness :
    ∃ rec turn done g',
      exStart.claim 4 exPick "a" .SPECIAL (exAsgTo .SPECIAL "a")
        = (.ok (rec, turn, done), g') ∧
      rec.success = false ∧
      (g'.getTeam exA.team.opp).score = (exStart.getTeam exA.team.opp).score + 1 ∧
      (g'.getTeam exA.team).score = (exStart.getTeam exA.team).score :=
  (C4_split_auto_fail vPlayersEx hsCardsEx "a" vAEx (by decide) (by decide) (by decide)
    (by decide) exStart 4 exPick "a" .SPECIAL exA (List.Perm.refl _)
    (by unfold Game.NodupIds; decide)
    (UniqueHolders_of_disjoint (by decide)) (by decide) exStart_turn (by decide)
    (by decide) (by decide) (by decide) (by decide)).2 (exAsgTo .SPECIAL "a") (by decide)

set_option maxRecDepth 100000 in
theorem C10_assignment_validation_witness :
    ∃ rec turn done g',
      exStart.claim 4 exPick "a" .HEARTS_HIGH (exAsgTo .HEARTS_HIGH "b")
        = (.ok (rec, turn, done), g') ∧
      rec.success = true ∧
      (g'.getTeam exA.team).score = (exStart.getTeam exA.team).score + 1 ∧
      (g'.getTeam exA.team.opp).score = (exStart.getTeam exA.team.opp).score :=
  (C10_assignment_validation exStart 4 exPick "a" .HEARTS_HIGH exA
    (List.Perm.refl _) (by unfold Game.NodupIds; decide) (by decide) exStart_turn
    (by decide) (by decide) (by decide)).2 (exAsgTo .HEARTS_HIGH "b") (by decide)
    (by
      intro kv hkv p hp
      rw [exAsgTo_snd _ _ kv hkv] at hp
      rw [show exStart.getPlayer "b" = some exB from by decide] at hp
      injection hp with hp1
      rw [← hp1]
      decide)
    (by decide)
